import Mathlib

/-!
Verification of the cake-studio order-intake apps (`app_basic.py`, `app_pro.py`).

The two Python files manipulate orders as dynamically-typed dicts whose values
come from JSON (the model's replies are parsed with `json.loads`).  We embed
such values as the inductive type `Json`, dicts as insertion-ordered
association lists, and Python's dynamic failures (`TypeError` on ill-typed
operands, `KeyError`, `AttributeError`, provider exceptions) as `Option` /
`Except String` results carrying the exception text.  External collaborators
(the OpenAI client, `json.loads`) are quantified environment parameters:
theorems hold for every provider behaviour, and concrete counterexamples pick
one explicit behaviour.
-/

/-- JSON values, the value universe of the Python order dicts: everything a
chat turn can merge into an order comes out of `json.loads`. -/
inductive Json where
  | jStr (s : String)
  | jInt (n : Int)
  | jBool (b : Bool)
  | jNull
  | jArr (elems : List Json)
  | jObj (fields : List (String × Json))

/-- Python dict with string keys, keeping insertion order (the shape of
`st.session_state.order` and of parsed model patches). -/
abbrev Order := List (String × Json)

/-- Python `d.get(k)` / `d[k]` lookup: first (unique) occurrence of the key. -/
def Order.get : Order → String → Option Json
  | [], _ => none
  | (k', v') :: rest, k => if k' = k then some v' else Order.get rest k

/-- Python `d[k] = v`: replace the value in place if the key exists, else
append the new key at the end (dict insertion order). -/
def Order.set : Order → String → Json → Order
  | [], k, v => [(k, v)]
  | (k', v') :: rest, k, v =>
      if k' = k then (k, v) :: rest else (k', v') :: Order.set rest k v

/-- Python `d.update(patch)` for a dict patch: assign each patch entry in
iteration order. -/
def pyUpdate (o : Order) (patch : List (String × Json)) : Order :=
  patch.foldl (fun acc kv => acc.set kv.1 kv.2) o

/-- Value of the last occurrence of a key in a key/value list (the value that
survives a Python `dict.update` with that list of entries). -/
def lastAssoc : List (String × Json) → String → Option Json
  | [], _ => none
  | (k', v') :: rest, k =>
      match lastAssoc rest k with
      | some v => some v
      | none => if k' = k then some v' else none

/-- Python truthiness of a JSON value (`if order.get('has_image'):` etc.). -/
def Json.truthy : Json → Bool
  | .jStr s => s != ""
  | .jInt n => n != 0
  | .jBool b => b
  | .jNull => false
  | .jArr elems => !elems.isEmpty
  | .jObj fields => !fields.isEmpty

/-- Truthiness of `d.get(k)`: a missing key (`None`) is falsy. -/
def truthyOpt : Option Json → Bool
  | none => false
  | some j => j.truthy

/-- Python hashability: lists and dicts are unhashable, so using them as a
dict key (`MENU["sizes"].get(key, 0)`) raises `TypeError`. -/
def pyHashable : Json → Bool
  | .jArr _ => false
  | .jObj _ => false
  | _ => true

/-- Does the needle occur as a contiguous run inside the haystack? -/
def listContains : List Char → List Char → Bool
  | needle, [] => needle.isEmpty
  | needle, c :: tl => needle.isPrefixOf (c :: tl) || listContains needle tl

/-- Python `needle in hay` for strings: substring (infix) test. -/
def pyIn (needle hay : String) : Bool :=
  listContains needle.toList hay.toList

/-- Python `s.strip()`: drop whitespace from both ends. -/
def pyStrip (s : String) : String :=
  String.mk (((s.toList.dropWhile Char.isWhitespace).reverse.dropWhile Char.isWhitespace).reverse)

/-- Python `s[:300]`-style slicing: take the first `n` code points. -/
def pySlice (s : String) (n : Nat) : String :=
  String.mk (s.toList.take n)

/-- `re.search(r"\x7b.*\x7d", s, re.DOTALL)`: the greedy match runs from the
first left brace to the last right brace of the whole string; there is a match
iff some right brace occurs after the first left brace. -/
def braceSpan (s : String) : Option String :=
  let cs := s.toList
  match cs.findIdx? (· = '{'), (cs.length - 1 - ((cs.reverse.findIdx? (· = '}')).getD 0) : Nat) with
  | some i, j =>
      if (cs.reverse.findIdx? (· = '}')).isSome ∧ i < j then
        some (String.mk ((cs.drop i).take (j - i + 1)))
      else none
  | none, _ => none

-- =============================================================
--  Catalog tables (`MENU`), declared identically in both files.
-- =============================================================

/-- `MENU["sizes"]` from `app_basic.py`. -/
def MENU_sizes_basic : List (String × Int) :=
  [("1호", 25000), ("2호", 36000), ("3호", 47000), ("하트", 42000)]

/-- `MENU["fillings"]` from `app_basic.py`. -/
def MENU_fillings_basic : List (String × Int) :=
  [("생크림", 0), ("초코", 3500), ("레드벨벳", 6000), ("티라미수", 5500)]

/-- `MENU["base_custom"]` from `app_basic.py`. -/
def MENU_base_custom_basic : Int := 20000

/-- `MENU["extras"]` from `app_basic.py`. -/
def MENU_extras_image_basic : Int := 10000
def MENU_extras_color_basic : Int := 5000
def MENU_extras_object_basic : Int := 2000
def MENU_extras_long_lettering_basic : Int := 3000

/-- `MENU["sizes"]` from `app_pro.py` (same literal as in `app_basic.py`). -/
def MENU_sizes_pro : List (String × Int) := MENU_sizes_basic

/-- `MENU["fillings"]` from `app_pro.py`. -/
def MENU_fillings_pro : List (String × Int) := MENU_fillings_basic

/-- `MENU["base_custom"]` from `app_pro.py`. -/
def MENU_base_custom_pro : Int := 20000

/-- `MENU["extras"]` from `app_pro.py`. -/
def MENU_extras_image_pro : Int := 10000
def MENU_extras_color_pro : Int := 5000
def MENU_extras_object_pro : Int := 2000
def MENU_extras_long_lettering_pro : Int := 3000

/-- Fee table lookup with default 0: `table.get(key_string, 0)`. -/
def feeTableGet (table : List (String × Int)) (s : String) : Int :=
  ((table.find? (fun p => p.1 = s)).map (·.2)).getD 0

/-- `MENU[...].get(order.get(k), 0)`: a missing key gives `None`, which is a
hashable non-member, so the default 0; a non-string hashable value is also a
non-member; an unhashable value (list/dict) raises `TypeError` (`none`). -/
def feeLookup (table : List (String × Int)) (v : Option Json) : Option Int :=
  match v with
  | none => some 0
  | some (.jStr s) => some (feeTableGet table s)
  | some j => if pyHashable j then some 0 else none

/-- `obj_count * MENU['extras']['object']` followed by `extra_cost += ...`:
ints multiply; Python bools are ints (`True` is 1); any other operand makes
the `+=` raise `TypeError` (string/list repetition or unsupported `*`). -/
def objectCost (fee : Int) : Option Json → Option Int
  | none => some 0
  | some (.jInt n) => some (n * fee)
  | some (.jBool b) => some ((if b then (1 : Int) else 0) * fee)
  | some _ => none

/-- `len(lettering)` where `lettering = order.get('lettering', '')`: length of
a string (code points), list, or dict; `len` raises `TypeError` on numbers,
booleans and `None`. -/
def pyLenForLettering : Option Json → Option Nat
  | none => some 0
  | some (.jStr s) => some s.length
  | some (.jArr elems) => some elems.length
  | some (.jObj fields) => some ((fields.map Prod.fst).eraseDups.length)
  | some _ => none

/-- `calculate_price` from `app_basic.py` lines 47-60; `none` models a raised
`TypeError` from an ill-typed field. -/
def calculate_price_basic (order : Order) : Option Int :=
  (feeLookup MENU_sizes_basic (order.get "size")).bind fun base =>
  (feeLookup MENU_fillings_basic (order.get "filling")).bind fun filling =>
  let custom_fee := MENU_base_custom_basic
  let img_cost : Int := if truthyOpt (order.get "has_image") then MENU_extras_image_basic else 0
  let color_cost : Int := if truthyOpt (order.get "has_color") then MENU_extras_color_basic else 0
  (objectCost MENU_extras_object_basic (order.get "object_count")).bind fun obj_cost =>
  (pyLenForLettering (order.get "lettering")).bind fun lettering_len =>
  let long_cost : Int := if 10 ≤ lettering_len then MENU_extras_long_lettering_basic else 0
  some (base + filling + custom_fee + (img_cost + color_cost + obj_cost + long_cost))

/-- `calculate_price` from `app_pro.py` lines 83-96; `none` models a raised
`TypeError` from an ill-typed field. -/
def calculate_price_pro (order : Order) : Option Int :=
  (feeLookup MENU_sizes_pro (order.get "size")).bind fun base =>
  (feeLookup MENU_fillings_pro (order.get "filling")).bind fun filling =>
  let custom_fee := MENU_base_custom_pro
  let img_cost : Int := if truthyOpt (order.get "has_image") then MENU_extras_image_pro else 0
  let color_cost : Int := if truthyOpt (order.get "has_color") then MENU_extras_color_pro else 0
  (objectCost MENU_extras_object_pro (order.get "object_count")).bind fun obj_cost =>
  (pyLenForLettering (order.get "lettering")).bind fun lettering_len =>
  let long_cost : Int := if 10 ≤ lettering_len then MENU_extras_long_lettering_pro else 0
  some (base + filling + custom_fee + (img_cost + color_cost + obj_cost + long_cost))

/-- The fee a (hashable) field value selects from a table: a string key looks
the table up with default 0, anything else is a non-member, so 0. -/
def strFeeOf (table : List (String × Int)) : Option Json → Int
  | some (.jStr s) => feeTableGet table s
  | _ => 0

/-- The `base = MENU["sizes"].get(order.get('size'), 0)` term of the price,
as a total function on the orders whose `size` field is hashable. -/
def base_fee (o : Order) : Int := strFeeOf MENU_sizes_pro (o.get "size")

/-- The `filling = MENU["fillings"].get(order.get('filling'), 0)` term. -/
def flavor_fee (o : Order) : Int := strFeeOf MENU_fillings_pro (o.get "filling")

/-- The `obj_count * MENU['extras']['object']` term, on well-typed counts. -/
def object_fee_term (o : Order) : Int :=
  match o.get "object_count" with
  | some (.jInt n) => n * MENU_extras_object_pro
  | some (.jBool b) => (if b then (1 : Int) else 0) * MENU_extras_object_pro
  | _ => 0

/-- The long-lettering term, on well-typed lettering fields. -/
def lettering_fee_term (o : Order) : Int :=
  match o.get "lettering" with
  | some (.jStr s) => if 10 ≤ s.length then MENU_extras_long_lettering_pro else 0
  | _ => 0

example : calculate_price_basic
    [("size", .jStr "1호"), ("filling", .jStr "초코"), ("object_count", .jInt 0),
     ("lettering", .jStr "-")] = some 48500 := by decide

example : calculate_price_pro [] = some 20000 := by decide

-- =============================================================
--  Chat messages and the intent extractor (`analyze_intent_with_gpt`)
-- =============================================================

/-- One chat turn (`{"role": ..., "content": ...}`); the content is a JSON
value because the code can store a model-returned `response_message` of any
JSON shape in it. -/
structure Msg where
  role : String
  content : Json

/-- Python type name of a JSON value, for modelled exception texts. -/
def pyTypeName : Json → String
  | .jStr _ => "str"
  | .jInt _ => "int"
  | .jBool _ => "bool"
  | .jNull => "NoneType"
  | .jArr _ => "list"
  | .jObj _ => "dict"

/-- Modelled from the CPython runtime: the `TypeError`/`ValueError` text of
`dict.update(x)` for a non-dict `x`.  (CPython accepts a list of key/value
pairs; the model folds that exotic shape into the error case as well, since
orders in this development only carry string keys and no theorem below
depends on array-shaped patches.) -/
def pyUpdateErrMsg : Json → String
  | .jNull => "\x27NoneType\x27 object is not iterable"
  | .jInt _ => "\x27int\x27 object is not iterable"
  | .jBool _ => "\x27bool\x27 object is not iterable"
  | .jStr _ => "dictionary update sequence element #0 has length 1; 2 is required"
  | .jArr _ => "cannot convert dictionary update sequence element #0 to a sequence"
  | .jObj _ => ""

/-- Modelled from the CPython runtime: `x.get(...)` on a non-dict raises
`AttributeError` with this text. -/
def pyAttrGetErrMsg (j : Json) : String :=
  "\x27" ++ pyTypeName j ++ "\x27 object has no attribute \x27get\x27"

/-- Result of one call to an intent extractor: the returned order, the
returned reply value, and how many requests were issued to the provider. -/
structure IntentOutcome where
  order : Order
  reply : Json
  calls : Nat

/-- Environment of `app_pro.py`: the module-level client flags and, for the
single request each helper issues, the provider's behaviour.  `loads` is the
semantics of `json.loads` (`.error` = raised `JSONDecodeError` with that
text). -/
structure ImgKwargs where
  model : String
  prompt : String
  size : String
  quality : Option String
  response_format : Option String

/-- Outcome of one `client.images.generate(**kwargs)` call. -/
inductive ImgOutcome where
  | ok (b64 : String)
  | badRequest (msg : String)
  | permissionDenied (msg : String)

structure ProEnv where
  hasClient : Bool
  hasResponsesApi : Bool
  hasImagesApi : Bool
  intentResponse : Except String String
  loads : String → Except String Json
  briefResponse : Except String String
  generate : ImgKwargs → ImgOutcome
  decode : String → String
  recursionFuel : Nat

/-- The merge step of `analyze_intent_with_gpt` in `app_pro.py` (lines
217-222): copy the current order, `update` it with a truthy `updated_order`,
and read `response_message` with a default.  Ill-typed shapes raise and are
caught by the outer `except`, which returns the original order. -/
def proMerge (current_order : Order) (result : Json) : IntentOutcome :=
  match result with
  | .jObj fields =>
      match Order.get fields "updated_order" with
      | some (.jObj patch) =>
          if !patch.isEmpty then
            ⟨pyUpdate current_order patch,
             (Order.get fields "response_message").getD (.jStr "요청을 반영했습니다."), 1⟩
          else
            ⟨current_order,
             (Order.get fields "response_message").getD (.jStr "요청을 반영했습니다."), 1⟩
      | some u =>
          if u.truthy then ⟨current_order, .jStr ("오류 발생: " ++ pyUpdateErrMsg u), 1⟩
          else ⟨current_order,
                (Order.get fields "response_message").getD (.jStr "요청을 반영했습니다."), 1⟩
      | none =>
          ⟨current_order,
           (Order.get fields "response_message").getD (.jStr "요청을 반영했습니다."), 1⟩
  | other => ⟨current_order, .jStr ("오류 발생: " ++ pyAttrGetErrMsg other), 1⟩

/-- `analyze_intent_with_gpt` from `app_pro.py` lines 156-225.  The request
payload (system prompt with the serialized order and trailing history) only
feeds the provider, whose behaviour is the quantified `env`; the observable
control flow is the guard, the tolerant parse chain and the merge. -/
def analyze_pro (env : ProEnv) (user_text : String) (current_order : Order)
    (chat_history : List Msg) : IntentOutcome :=
  if !env.hasClient then
    ⟨current_order, .jStr "🚨 OpenAI 클라이언트가 초기화되지 않았습니다. API 키를 확인해주세요.", 0⟩
  else
    if env.hasResponsesApi then
      match env.intentResponse with
      | .error e => ⟨current_order, .jStr ("오류 발생: " ++ e), 1⟩
      | .ok extracted =>
        let content0 := pyStrip extracted
        let content_str :=
          if pyIn "```" content0 then (braceSpan content0).getD content0 else content0
        match env.loads content_str with
        | .ok result => proMerge current_order result
        | .error _ =>
          match braceSpan content_str with
          | some g =>
            match env.loads g with
            | .ok result => proMerge current_order result
            | .error _ =>
                ⟨current_order,
                 .jStr ("파싱 오류: 응답을 JSON으로 변환할 수 없습니다. (원문: " ++ pySlice content_str 300 ++ ")"), 1⟩
          | none =>
              ⟨current_order, .jStr ("응답을 이해할 수 없습니다: " ++ pySlice content_str 300), 1⟩
    else ⟨current_order, .jStr "지원되는 챗 API가 없습니다.", 0⟩

/-- Environment of `app_basic.py`: the module-level `OPENAI_API_KEY` (absent
when neither the environment variable nor `openai_key.txt` provided one) and
the provider behaviour for the single chat-completion request. -/
structure BasicEnv where
  apiKey : Option String
  response : Except String String
  loads : String → Except String Json

/-- The tail of `analyze_intent_with_gpt` in `app_basic.py` (lines 95-98):
parse, copy, merge, and read `response_message` by subscript (a missing key
raises `KeyError` after the merge, so the original order is returned). -/
def basicFinish (current_order new_order : Order) (fields : List (String × Json)) : IntentOutcome :=
  match Order.get fields "response_message" with
  | some msg => ⟨new_order, msg, 1⟩
  | none => ⟨current_order, .jStr "오류 발생: \x27response_message\x27", 1⟩

/-- Merge step of `app_basic.py` (lines 95-98), with the dynamic failure
modes routed to the function's `except` clause. -/
def basicMerge (current_order : Order) (result : Json) : IntentOutcome :=
  match result with
  | .jObj fields =>
      match Order.get fields "updated_order" with
      | some (.jObj patch) =>
          if !patch.isEmpty then basicFinish current_order (pyUpdate current_order patch) fields
          else basicFinish current_order current_order fields
      | some u =>
          if u.truthy then ⟨current_order, .jStr ("오류 발생: " ++ pyUpdateErrMsg u), 1⟩
          else basicFinish current_order current_order fields
      | none => basicFinish current_order current_order fields
  | other => ⟨current_order, .jStr ("오류 발생: " ++ pyAttrGetErrMsg other), 1⟩

/-- `json.loads` plus merge for `app_basic.py`: a parse failure is caught by
the function's `except Exception` clause, whose reply is the exception text
(not an excerpt of the raw response). -/
def basicParse (env : BasicEnv) (content : String) (current_order : Order) : IntentOutcome :=
  match env.loads content with
  | .error e => ⟨current_order, .jStr ("오류 발생: " ++ e), 1⟩
  | .ok result => basicMerge current_order result

/-- `analyze_intent_with_gpt` from `app_basic.py` lines 62-100.  The guard
`"sk-" not in OPENAI_API_KEY` raises `TypeError` when the key is `None`
(`.error`, uncaught by any handler in this file); a key without `"sk-"`
short-circuits with the fixed notice. -/
def analyze_basic (env : BasicEnv) (user_text : String) (current_order : Order)
    (chat_history : List Msg) : Except String IntentOutcome :=
  match env.apiKey with
  | none => .error "argument of type \x27NoneType\x27 is not iterable"
  | some key =>
    if !pyIn "sk-" key then
      .ok ⟨current_order, .jStr "🚨 API 키가 설정되지 않았습니다!", 0⟩
    else
      match env.response with
      | .error e => .ok ⟨current_order, .jStr ("오류 발생: " ++ e), 1⟩
      | .ok raw =>
        let content0 := pyStrip raw
        if pyIn "```" content0 then
          match braceSpan content0 with
          | some g => .ok (basicParse env g current_order)
          | none =>
              .ok ⟨current_order,
                   .jStr "오류 발생: \x27NoneType\x27 object has no attribute \x27group\x27", 1⟩
        else .ok (basicParse env content0 current_order)

-- =============================================================
--  Dict lemmas
-- =============================================================

theorem Order.get_set (o : Order) (k' k : String) (v : Json) :
    (o.set k' v).get k = if k' = k then some v else o.get k := by
  induction o with
  | nil => simp [Order.set, Order.get]
  | cons hd tl ih =>
    obtain ⟨k₀, v₀⟩ := hd
    by_cases h₀ : k₀ = k'
    · subst h₀
      by_cases hk : k₀ = k <;> simp [Order.set, Order.get, hk]
    · by_cases hk : k₀ = k
      · subst hk
        have : ¬ k' = k₀ := fun h => h₀ h.symm
        simp [Order.set, Order.get, h₀, this]
      · simp [Order.set, Order.get, h₀, hk, ih]

theorem get_pyUpdate_miss (patch : List (String × Json)) (o : Order) (k : String)
    (h : lastAssoc patch k = none) : (pyUpdate o patch).get k = o.get k := by
  induction patch generalizing o with
  | nil => rfl
  | cons p rest ih =>
    rw [lastAssoc] at h
    cases hrest : lastAssoc rest k with
    | some v' => rw [hrest] at h; cases h
    | none =>
      rw [hrest] at h
      by_cases hp : p.1 = k
      · rw [if_pos hp] at h; cases h
      · rw [if_neg hp] at h
        show (pyUpdate (o.set p.1 p.2) rest).get k = o.get k
        rw [ih (o.set p.1 p.2) hrest, Order.get_set, if_neg hp]

theorem get_pyUpdate_hit (patch : List (String × Json)) (o : Order) (k : String) (v : Json)
    (h : lastAssoc patch k = some v) : (pyUpdate o patch).get k = some v := by
  induction patch generalizing o with
  | nil => simp [lastAssoc] at h
  | cons p rest ih =>
    rw [lastAssoc] at h
    cases hrest : lastAssoc rest k with
    | some v' =>
      rw [hrest] at h
      cases h
      exact ih (o.set p.1 p.2) hrest
    | none =>
      rw [hrest] at h
      by_cases hp : p.1 = k
      · simp only [hp, if_pos rfl] at h
        cases h
        have hmiss : (pyUpdate (o.set p.1 p.2) rest).get k = (o.set p.1 p.2).get k :=
          get_pyUpdate_miss rest (o.set p.1 p.2) k hrest
        show (pyUpdate (o.set p.1 p.2) rest).get k = some p.2
        rw [hmiss, Order.get_set, if_pos hp]
      · simp [hp] at h

-- =============================================================
--  Pricing lemmas
-- =============================================================

theorem feeLookup_of_hashable (table : List (String × Int)) (v : Option Json)
    (h : ∀ j, v = some j → pyHashable j = true) :
    feeLookup table v =
      some (match v with | some (.jStr s) => feeTableGet table s | _ => 0) := by
  cases v with
  | none => rfl
  | some j =>
    cases j <;> first
      | rfl
      | (exact absurd (h _ rfl) (by simp [pyHashable]))

/-- Hashability of `order.get(k)`: `None` (missing key) is hashable. -/
def pyHashableOpt : Option Json → Bool
  | none => true
  | some j => pyHashable j

theorem feeLookup_of_hashableOpt (table : List (String × Int)) (v : Option Json)
    (h : pyHashableOpt v = true) :
    feeLookup table v = some (strFeeOf table v) := by
  cases v with
  | none => rfl
  | some j =>
    cases j <;> first
      | rfl
      | exact absurd h (by simp [pyHashableOpt, pyHashable])

theorem feeLookup_size (o : Order) (h : pyHashableOpt (o.get "size") = true) :
    feeLookup MENU_sizes_pro (o.get "size") = some (base_fee o) :=
  feeLookup_of_hashableOpt _ _ h

theorem feeLookup_filling (o : Order) (h : pyHashableOpt (o.get "filling") = true) :
    feeLookup MENU_fillings_pro (o.get "filling") = some (flavor_fee o) :=
  feeLookup_of_hashableOpt _ _ h

/-- C1: for every order record (with the pricing fields shaped as the data
model prescribes), `calculate_price` returns
`base_fee(size) + flavor_fee(filling) + 20000 + 10000·[has_image]
 + 5000·[has_color] + 2000·object_count + 3000·[len(lettering) ≥ 10]`;
a lettering of length 9 excludes the long-lettering fee and one of length 10
includes it exactly once. -/
theorem price_formula_and_lettering_boundary
    (o : Order) (s : String) (n : Int)
    (hsz : pyHashableOpt (o.get "size") = true)
    (hfl : pyHashableOpt (o.get "filling") = true)
    (hobj : o.get "object_count" = some (.jInt n) ∨ (o.get "object_count" = none ∧ n = 0))
    (hlet : o.get "lettering" = some (.jStr s) ∨ (o.get "lettering" = none ∧ s = "")) :
    calculate_price_pro o = some (base_fee o + flavor_fee o + MENU_base_custom_pro
      + ((if truthyOpt (o.get "has_image") then MENU_extras_image_pro else 0)
        + (if truthyOpt (o.get "has_color") then MENU_extras_color_pro else 0)
        + n * MENU_extras_object_pro
        + (if 10 ≤ s.length then MENU_extras_long_lettering_pro else 0)))
    ∧ (s.length = 9 → calculate_price_pro o = some (base_fee o + flavor_fee o + MENU_base_custom_pro
      + ((if truthyOpt (o.get "has_image") then MENU_extras_image_pro else 0)
        + (if truthyOpt (o.get "has_color") then MENU_extras_color_pro else 0)
        + n * MENU_extras_object_pro)))
    ∧ (s.length = 10 → calculate_price_pro o = some (base_fee o + flavor_fee o + MENU_base_custom_pro
      + ((if truthyOpt (o.get "has_image") then MENU_extras_image_pro else 0)
        + (if truthyOpt (o.get "has_color") then MENU_extras_color_pro else 0)
        + n * MENU_extras_object_pro
        + MENU_extras_long_lettering_pro))) := by
  have hmain : calculate_price_pro o = some (base_fee o + flavor_fee o + MENU_base_custom_pro
      + ((if truthyOpt (o.get "has_image") then MENU_extras_image_pro else 0)
        + (if truthyOpt (o.get "has_color") then MENU_extras_color_pro else 0)
        + n * MENU_extras_object_pro
        + (if 10 ≤ s.length then MENU_extras_long_lettering_pro else 0))) := by
    unfold calculate_price_pro
    rw [feeLookup_size o hsz, feeLookup_filling o hfl]
    rcases hobj with h | ⟨h, hn⟩ <;> rcases hlet with h2 | ⟨h2, hs2⟩ <;>
      subst_vars <;> simp [h, h2, objectCost, pyLenForLettering]
  refine ⟨hmain, fun h9 => ?_, fun h10 => ?_⟩
  · rw [hmain, h9]
    norm_num
  · rw [hmain, h10]
    norm_num

/-- A concrete order exercising the length-9 lettering boundary. -/
def sampleOrder9 : Order :=
  [("size", .jStr "1호"), ("filling", .jStr "초코"), ("has_image", .jBool false),
   ("has_color", .jBool true), ("object_count", .jInt 2), ("lettering", .jStr "가나다라마바사아자")]

/-- A concrete order exercising the length-10 lettering boundary. -/
def sampleOrder10 : Order :=
  [("size", .jStr "1호"), ("filling", .jStr "초코"), ("has_image", .jBool false),
   ("has_color", .jBool true), ("object_count", .jInt 2), ("lettering", .jStr "가나다라마바사아자차")]

theorem price_formula_and_lettering_boundary_witness :
    (calculate_price_pro sampleOrder9 = some (base_fee sampleOrder9 + flavor_fee sampleOrder9
      + MENU_base_custom_pro
      + ((if truthyOpt (sampleOrder9.get "has_image") then MENU_extras_image_pro else 0)
        + (if truthyOpt (sampleOrder9.get "has_color") then MENU_extras_color_pro else 0)
        + 2 * MENU_extras_object_pro
        + (if 10 ≤ ("가나다라마바사아자" : String).length then MENU_extras_long_lettering_pro else 0)))
    ∧ (("가나다라마바사아자" : String).length = 9 → calculate_price_pro sampleOrder9
        = some (base_fee sampleOrder9 + flavor_fee sampleOrder9 + MENU_base_custom_pro
      + ((if truthyOpt (sampleOrder9.get "has_image") then MENU_extras_image_pro else 0)
        + (if truthyOpt (sampleOrder9.get "has_color") then MENU_extras_color_pro else 0)
        + 2 * MENU_extras_object_pro)))
    ∧ (("가나다라마바사아자" : String).length = 10 → calculate_price_pro sampleOrder9
        = some (base_fee sampleOrder9 + flavor_fee sampleOrder9 + MENU_base_custom_pro
      + ((if truthyOpt (sampleOrder9.get "has_image") then MENU_extras_image_pro else 0)
        + (if truthyOpt (sampleOrder9.get "has_color") then MENU_extras_color_pro else 0)
        + 2 * MENU_extras_object_pro
        + MENU_extras_long_lettering_pro))))
    ∧ ("가나다라마바사아자" : String).length = 9
    ∧ ("가나다라마바사아자차" : String).length = 10
    ∧ calculate_price_pro sampleOrder9 = some 57500
    ∧ calculate_price_pro sampleOrder10 = some 60500 := by
  refine ⟨price_formula_and_lettering_boundary sampleOrder9 "가나다라마바사아자" 2
      rfl rfl (Or.inl rfl) (Or.inl rfl), rfl, rfl, ?_, ?_⟩
  · exact (price_formula_and_lettering_boundary sampleOrder9 "가나다라마바사아자" 2
      rfl rfl (Or.inl rfl) (Or.inl rfl)).2.1 rfl
  · exact (price_formula_and_lettering_boundary sampleOrder10 "가나다라마바사아자차" 2
      rfl rfl (Or.inl rfl) (Or.inl rfl)).2.2 rfl

/-- The well-typedness of an order record per the data model of the spec
(sizes/fillings are enum keys or absent, `object_count` an integer,
`lettering` a string); under it the pricing function is total. -/
def PricingWellTyped (o : Order) : Prop :=
  pyHashableOpt (o.get "size") = true ∧
  pyHashableOpt (o.get "filling") = true ∧
  (o.get "object_count" = none ∨ ∃ n, o.get "object_count" = some (.jInt n)) ∧
  (o.get "lettering" = none ∨ ∃ s, o.get "lettering" = some (.jStr s))

/-- C9: the pricing function is total over order records — a size or filling
key missing from the record or absent from the catalog tables contributes 0
to the price, and the function returns normally. -/
theorem price_total_and_unknown_keys_zero (o : Order) (h : PricingWellTyped o) :
    (calculate_price_pro o).isSome = true
    ∧ calculate_price_pro o = some (base_fee o + flavor_fee o + MENU_base_custom_pro
        + ((if truthyOpt (o.get "has_image") then MENU_extras_image_pro else 0)
          + (if truthyOpt (o.get "has_color") then MENU_extras_color_pro else 0)
          + object_fee_term o + lettering_fee_term o))
    ∧ (o.get "size" = none → base_fee o = 0)
    ∧ (∀ s, o.get "size" = some (.jStr s) →
        MENU_sizes_pro.find? (fun p => p.1 = s) = none → base_fee o = 0)
    ∧ (o.get "filling" = none → flavor_fee o = 0)
    ∧ (∀ s, o.get "filling" = some (.jStr s) →
        MENU_fillings_pro.find? (fun p => p.1 = s) = none → flavor_fee o = 0) := by
  obtain ⟨hs, hf, hob, hle⟩ := h
  have hmain : calculate_price_pro o = some (base_fee o + flavor_fee o + MENU_base_custom_pro
      + ((if truthyOpt (o.get "has_image") then MENU_extras_image_pro else 0)
        + (if truthyOpt (o.get "has_color") then MENU_extras_color_pro else 0)
        + object_fee_term o + lettering_fee_term o)) := by
    unfold calculate_price_pro
    rw [feeLookup_size o hs, feeLookup_filling o hf]
    rcases hob with hob | ⟨n, hob⟩ <;> rcases hle with hle | ⟨s, hle⟩ <;>
      simp [hob, hle, objectCost, pyLenForLettering, object_fee_term, lettering_fee_term]
  refine ⟨by rw [hmain]; rfl, hmain, ?_, ?_, ?_, ?_⟩
  · intro hnone; simp [base_fee, strFeeOf, hnone]
  · intro s hsome hfind; simp [base_fee, strFeeOf, hsome, feeTableGet, hfind]
  · intro hnone; simp [flavor_fee, strFeeOf, hnone]
  · intro s hsome hfind; simp [flavor_fee, strFeeOf, hsome, feeTableGet, hfind]

/-- An order whose size and filling keys are absent from the catalog tables. -/
def sampleUnknownOrder : Order := [("size", .jStr "9호"), ("filling", .jStr "민트초코")]

theorem price_total_and_unknown_keys_zero_witness :
    ((calculate_price_pro sampleUnknownOrder).isSome = true
    ∧ calculate_price_pro sampleUnknownOrder = some (base_fee sampleUnknownOrder
        + flavor_fee sampleUnknownOrder + MENU_base_custom_pro
        + ((if truthyOpt (sampleUnknownOrder.get "has_image") then MENU_extras_image_pro else 0)
          + (if truthyOpt (sampleUnknownOrder.get "has_color") then MENU_extras_color_pro else 0)
          + object_fee_term sampleUnknownOrder + lettering_fee_term sampleUnknownOrder))
    ∧ (sampleUnknownOrder.get "size" = none → base_fee sampleUnknownOrder = 0)
    ∧ (∀ s, sampleUnknownOrder.get "size" = some (.jStr s) →
        MENU_sizes_pro.find? (fun p => p.1 = s) = none → base_fee sampleUnknownOrder = 0)
    ∧ (sampleUnknownOrder.get "filling" = none → flavor_fee sampleUnknownOrder = 0)
    ∧ (∀ s, sampleUnknownOrder.get "filling" = some (.jStr s) →
        MENU_fillings_pro.find? (fun p => p.1 = s) = none → flavor_fee sampleUnknownOrder = 0))
    ∧ calculate_price_pro sampleUnknownOrder = some 20000 :=
  ⟨price_total_and_unknown_keys_zero sampleUnknownOrder
      ⟨rfl, rfl, Or.inl rfl, Or.inl rfl⟩, rfl⟩

/-- C10: `calculate_price` in `app_basic.py` and `calculate_price` in
`app_pro.py` compute the same price on every order record. -/
theorem calculate_price_basic_eq_pro : ∀ o : Order, calculate_price_basic o = calculate_price_pro o :=
  fun _ => rfl

-- =============================================================
--  Heap-level model of the intent extractor (aliasing/copying)
-- =============================================================

/-- A heap of dict objects; a dict reference is an index, `copy()` allocates
a fresh index at the end.  This level makes the `.copy()` in
`analyze_intent_with_gpt` observable, so in-place mutation of the caller's
argument can be stated. -/
abbrev Heap := List Order

/-- Heap version of the merge step of `app_pro.py` lines 217-222: the copy is
allocated first (`new_order = current_order.copy()`), the `update` mutates
only the fresh object, and the exception paths return the caller's reference
unchanged. -/
def proMergeHeap (heap : Heap) (r : Nat) (result : Json) : Heap × Nat × Json :=
  let cur := heap.getD r []
  let fresh := heap.length
  let heap1 := heap ++ [cur]
  match result with
  | .jObj fields =>
    match Order.get fields "updated_order" with
    | some (.jObj patch) =>
        if !patch.isEmpty then
          (heap1.set fresh (pyUpdate cur patch), fresh,
           (Order.get fields "response_message").getD (.jStr "요청을 반영했습니다."))
        else
          (heap1, fresh, (Order.get fields "response_message").getD (.jStr "요청을 반영했습니다."))
    | some u =>
        if u.truthy then (heap1, r, .jStr ("오류 발생: " ++ pyUpdateErrMsg u))
        else (heap1, fresh, (Order.get fields "response_message").getD (.jStr "요청을 반영했습니다."))
    | none => (heap1, fresh, (Order.get fields "response_message").getD (.jStr "요청을 반영했습니다."))
  | other => (heap1, r, .jStr ("오류 발생: " ++ pyAttrGetErrMsg other))

/-- Heap version of `analyze_intent_with_gpt` from `app_pro.py`. -/
def analyze_heap_pro (env : ProEnv) (heap : Heap) (r : Nat) (user_text : String) :
    Heap × Nat × Json :=
  if !env.hasClient then
    (heap, r, .jStr "🚨 OpenAI 클라이언트가 초기화되지 않았습니다. API 키를 확인해주세요.")
  else
    if env.hasResponsesApi then
      match env.intentResponse with
      | .error e => (heap, r, .jStr ("오류 발생: " ++ e))
      | .ok extracted =>
        let content0 := pyStrip extracted
        let content_str :=
          if pyIn "```" content0 then (braceSpan content0).getD content0 else content0
        match env.loads content_str with
        | .ok result => proMergeHeap heap r result
        | .error _ =>
          match braceSpan content_str with
          | some g =>
            match env.loads g with
            | .ok result => proMergeHeap heap r result
            | .error _ =>
                (heap, r,
                 .jStr ("파싱 오류: 응답을 JSON으로 변환할 수 없습니다. (원문: " ++ pySlice content_str 300 ++ ")"))
          | none => (heap, r, .jStr ("응답을 이해할 수 없습니다: " ++ pySlice content_str 300))
    else (heap, r, .jStr "지원되는 챗 API가 없습니다.")

/-- Heap version of the `response_message` subscript in `app_basic.py`: on
`KeyError` the caller's reference is returned (the merged copy is abandoned). -/
def basicRespHeap (h : Heap) (r fresh : Nat) (fields : List (String × Json)) :
    Heap × Nat × Json :=
  match Order.get fields "response_message" with
  | some msg => (h, fresh, msg)
  | none => (h, r, .jStr "오류 발생: \x27response_message\x27")

/-- Heap version of the merge step of `app_basic.py` lines 96-98. -/
def basicMergeHeap (heap : Heap) (r : Nat) (result : Json) : Heap × Nat × Json :=
  let cur := heap.getD r []
  let fresh := heap.length
  let heap1 := heap ++ [cur]
  match result with
  | .jObj fields =>
    match Order.get fields "updated_order" with
    | some (.jObj patch) =>
        if !patch.isEmpty then
          basicRespHeap (heap1.set fresh (pyUpdate cur patch)) r fresh fields
        else basicRespHeap heap1 r fresh fields
    | some u =>
        if u.truthy then (heap1, r, .jStr ("오류 발생: " ++ pyUpdateErrMsg u))
        else basicRespHeap heap1 r fresh fields
    | none => basicRespHeap heap1 r fresh fields
  | other => (heap1, r, .jStr ("오류 발생: " ++ pyAttrGetErrMsg other))

/-- Heap version of parse+merge for `app_basic.py`. -/
def basicParseHeap (env : BasicEnv) (content : String) (heap : Heap) (r : Nat) :
    Heap × Except String (Nat × Json) :=
  match env.loads content with
  | .error e => (heap, .ok (r, .jStr ("오류 발생: " ++ e)))
  | .ok result =>
      let out := basicMergeHeap heap r result
      (out.1, .ok (out.2.1, out.2.2))

/-- Heap version of `analyze_intent_with_gpt` from `app_basic.py`; the
`.error` case is the uncaught `TypeError` on a `None` key. -/
def analyze_heap_basic (env : BasicEnv) (heap : Heap) (r : Nat) (user_text : String) :
    Heap × Except String (Nat × Json) :=
  match env.apiKey with
  | none => (heap, .error "argument of type \x27NoneType\x27 is not iterable")
  | some key =>
    if !pyIn "sk-" key then (heap, .ok (r, .jStr "🚨 API 키가 설정되지 않았습니다!"))
    else
      match env.response with
      | .error e => (heap, .ok (r, .jStr ("오류 발생: " ++ e)))
      | .ok raw =>
        let content0 := pyStrip raw
        if pyIn "```" content0 then
          match braceSpan content0 with
          | some g => basicParseHeap env g heap r
          | none =>
              (heap, .ok (r, .jStr "오류 발생: \x27NoneType\x27 object has no attribute \x27group\x27"))
        else basicParseHeap env content0 heap r

theorem set_fresh_getElem (heap : Heap) (cur x : Order) (r : Nat) (h : r < heap.length) :
    ((heap ++ [cur]).set heap.length x)[r]? = heap[r]? := by
  rw [List.getElem?_set_ne (Nat.ne_of_gt h), List.getElem?_append_left h]

theorem proMergeHeap_frame (heap : Heap) (r : Nat) (result : Json) (h : r < heap.length) :
    ((proMergeHeap heap r result).1)[r]? = heap[r]? := by
  have happ : (heap ++ [heap.getD r []])[r]? = heap[r]? := List.getElem?_append_left h
  have hset := fun x => set_fresh_getElem heap (heap.getD r []) x r h
  unfold proMergeHeap
  repeat' split
  all_goals first
    | simpa using happ
    | simpa using hset _

theorem basicRespHeap_fst (h : Heap) (r fresh : Nat) (fields : List (String × Json)) :
    (basicRespHeap h r fresh fields).1 = h := by
  unfold basicRespHeap
  cases Order.get fields "response_message" <;> rfl

theorem basicMergeHeap_frame (heap : Heap) (r : Nat) (result : Json) (h : r < heap.length) :
    ((basicMergeHeap heap r result).1)[r]? = heap[r]? := by
  have happ : (heap ++ [heap.getD r []])[r]? = heap[r]? := List.getElem?_append_left h
  have hset := fun x => set_fresh_getElem heap (heap.getD r []) x r h
  unfold basicMergeHeap
  repeat' split
  all_goals first
    | simpa [basicRespHeap_fst] using happ
    | simpa [basicRespHeap_fst] using hset _

theorem set_fresh_getElem_self (heap : Heap) (cur x : Order) :
    ((heap ++ [cur]).set heap.length x)[heap.length]? = some x := by
  induction heap with
  | nil => rfl
  | cons a t ih => simpa using ih

theorem analyze_heap_pro_frame (env : ProEnv) (heap : Heap) (r : Nat) (ut : String)
    (h : r < heap.length) : ((analyze_heap_pro env heap r ut).1)[r]? = heap[r]? := by
  unfold analyze_heap_pro
  repeat' first
    | exact proMergeHeap_frame heap r _ h
    | rfl
    | split
    | dsimp only

theorem basicParseHeap_frame (env : BasicEnv) (content : String) (heap : Heap) (r : Nat)
    (h : r < heap.length) : ((basicParseHeap env content heap r).1)[r]? = heap[r]? := by
  unfold basicParseHeap
  repeat' first
    | exact basicMergeHeap_frame heap r _ h
    | rfl
    | split
    | dsimp only

theorem analyze_heap_basic_frame (env : BasicEnv) (heap : Heap) (r : Nat) (ut : String)
    (h : r < heap.length) : ((analyze_heap_basic env heap r ut).1)[r]? = heap[r]? := by
  unfold analyze_heap_basic
  repeat' first
    | exact basicParseHeap_frame env _ heap r h
    | rfl
    | split
    | dsimp only

/-- C5 (amended): neither extractor ever mutates the dict its `current_order`
argument points to — the caller's heap entry is untouched on every path; on
the successful merge path the returned object is a freshly allocated copy
holding the merged fields; but on the failure paths the function returns the
caller's own object unchanged, not a copy. -/
theorem intent_extractor_no_argument_mutation :
    (∀ env heap r ut, r < heap.length →
      ((analyze_heap_pro env heap r ut).1)[r]? = heap[r]?)
    ∧ (∀ env heap r ut, r < heap.length →
      ((analyze_heap_basic env heap r ut).1)[r]? = heap[r]?)
    ∧ (∀ (env : ProEnv) heap r ut extracted fields patch,
        env.hasClient = true → env.hasResponsesApi = true →
        env.intentResponse = .ok extracted →
        pyIn "```" (pyStrip extracted) = false →
        env.loads (pyStrip extracted) = .ok (.jObj fields) →
        Order.get fields "updated_order" = some (.jObj patch) →
        patch.isEmpty = false →
        (analyze_heap_pro env heap r ut).2.1 = heap.length
        ∧ ((analyze_heap_pro env heap r ut).1)[heap.length]?
            = some (pyUpdate (heap.getD r []) patch))
    ∧ (∀ (env : ProEnv) heap r ut, env.hasClient = false →
        analyze_heap_pro env heap r ut
          = (heap, r, .jStr "🚨 OpenAI 클라이언트가 초기화되지 않았습니다. API 키를 확인해주세요.")) := by
  refine ⟨fun env heap r ut h => analyze_heap_pro_frame env heap r ut h,
          fun env heap r ut h => analyze_heap_basic_frame env heap r ut h,
          ?_, ?_⟩
  · intro env heap r ut extracted fields patch h1 h2 h3 h4 h5 h6 h7
    have hmerge : analyze_heap_pro env heap r ut
        = proMergeHeap heap r (.jObj fields) := by
      unfold analyze_heap_pro
      rw [h1, h3]
      simp only [h2, h4, Bool.not_true, Bool.false_eq_true, if_false, if_true, ite_false,
        ite_true, Bool.not_false]
      rw [h5]
    have hout : proMergeHeap heap r (.jObj fields)
        = ((heap ++ [heap.getD r []]).set heap.length (pyUpdate (heap.getD r []) patch),
           heap.length,
           (Order.get fields "response_message").getD (.jStr "요청을 반영했습니다.")) := by
      unfold proMergeHeap
      dsimp only
      rw [h6]
      simp [h7]
    rw [hmerge, hout]
    exact ⟨rfl, set_fresh_getElem_self heap _ _⟩
  · intro env heap r ut h
    unfold analyze_heap_pro
    rw [h]
    rfl

/-- An environment with no configured client (`OPENAI_API_KEY` absent from
the environment variable and the key file). -/
def envNoClient : ProEnv :=
  { hasClient := false, hasResponsesApi := false, hasImagesApi := false,
    intentResponse := .ok "",
    loads := fun _ => .error "Expecting value: line 1 column 1 (char 0)",
    briefResponse := .ok "", generate := fun _ => .ok "", decode := id,
    recursionFuel := 0 }

/-- C5 counterexample: on the unconfigured-backend failure path the extractor
returns the caller's own dict (the same reference, index 0) and allocates no
copy at all (the heap is unchanged), refuting "always operates on and returns
a copy, on success paths and on failure paths alike". -/
theorem intent_extractor_failure_returns_argument_not_copy :
    (analyze_heap_pro envNoClient [[("design_desc", Json.jStr "A")]] 0 "hi").2.1 = 0
    ∧ (analyze_heap_pro envNoClient [[("design_desc", Json.jStr "A")]] 0 "hi").1
        = [[("design_desc", Json.jStr "A")]] :=
  ⟨rfl, rfl⟩

/-- The raw model reply used by the concrete merge scenarios. -/
def rawPatchDesign : String :=
  "\x7b\"updated_order\": \x7b\"design_desc\": \"C\"\x7d, \"response_message\": \"ok\"\x7d"

/-- Modelled from the Python standard library: `json.loads` on the one
response text the concrete scenarios use (everything else is immaterial and
modelled as the standard parse failure). -/
def loadsPatchDesign : String → Except String Json := fun s =>
  if s = rawPatchDesign then
    .ok (.jObj [("updated_order", .jObj [("design_desc", .jStr "C")]),
                ("response_message", .jStr "ok")])
  else .error "Expecting value: line 1 column 1 (char 0)"

/-- A fully configured `app_pro` environment whose model reply patches
`design_desc` to `"C"`. -/
def envPatchDesign : ProEnv :=
  { hasClient := true, hasResponsesApi := true, hasImagesApi := false,
    intentResponse := .ok rawPatchDesign,
    loads := loadsPatchDesign,
    briefResponse := .ok "", generate := fun _ => .ok "", decode := id,
    recursionFuel := 0 }

/-- A configured `app_basic` environment with the same model reply. -/
def envBasicPatchDesign : BasicEnv :=
  { apiKey := some "sk-test",
    response := .ok rawPatchDesign,
    loads := loadsPatchDesign }

theorem intent_extractor_no_argument_mutation_witness :
    (((analyze_heap_pro envPatchDesign [[("design_desc", Json.jStr "A"), ("lettering", Json.jStr "B")]] 0 "바꿔줘").1)[0]?
        = some [("design_desc", Json.jStr "A"), ("lettering", Json.jStr "B")])
    ∧ (((analyze_heap_basic envBasicPatchDesign [[("design_desc", Json.jStr "A"), ("lettering", Json.jStr "B")]] 0 "바꿔줘").1)[0]?
        = some [("design_desc", Json.jStr "A"), ("lettering", Json.jStr "B")])
    ∧ ((analyze_heap_pro envPatchDesign [[("design_desc", Json.jStr "A"), ("lettering", Json.jStr "B")]] 0 "바꿔줘").2.1 = 1
        ∧ ((analyze_heap_pro envPatchDesign [[("design_desc", Json.jStr "A"), ("lettering", Json.jStr "B")]] 0 "바꿔줘").1)[1]?
            = some [("design_desc", Json.jStr "C"), ("lettering", Json.jStr "B")])
    ∧ analyze_heap_pro envNoClient [[("design_desc", Json.jStr "A")]] 1 "hi"
        = ([[("design_desc", Json.jStr "A")]], 1,
           .jStr "🚨 OpenAI 클라이언트가 초기화되지 않았습니다. API 키를 확인해주세요.") := by
  refine ⟨?_, ?_, ?_, ?_⟩
  · rw [intent_extractor_no_argument_mutation.1 envPatchDesign _ 0 "바꿔줘" (by decide)]
    rfl
  · rw [intent_extractor_no_argument_mutation.2.1 envBasicPatchDesign _ 0 "바꿔줘" (by decide)]
    rfl
  · have := intent_extractor_no_argument_mutation.2.2.1 envPatchDesign
      [[("design_desc", Json.jStr "A"), ("lettering", Json.jStr "B")]] 0 "바꿔줘"
      rawPatchDesign
      [("updated_order", .jObj [("design_desc", .jStr "C")]), ("response_message", .jStr "ok")]
      [("design_desc", .jStr "C")]
      rfl rfl rfl rfl rfl rfl rfl
    exact ⟨this.1, this.2⟩
  · exact intent_extractor_no_argument_mutation.2.2.2 envNoClient
      [[("design_desc", Json.jStr "A")]] 1 "hi" rfl

-- =============================================================
--  C4: the merge is a shallow field-by-field override
-- =============================================================

theorem analyze_pro_parsed (env : ProEnv) (ut : String) (cur : Order) (hist : List Msg)
    (extracted : String) (result : Json)
    (p1 : env.hasClient = true) (p2 : env.hasResponsesApi = true)
    (p3 : env.intentResponse = .ok extracted)
    (p4 : pyIn "```" (pyStrip extracted) = false)
    (p5 : env.loads (pyStrip extracted) = .ok result) :
    analyze_pro env ut cur hist = proMerge cur result := by
  unfold analyze_pro
  rw [p1, p3]
  simp only [p2, p4, Bool.not_true, Bool.false_eq_true, if_false, if_true, ite_false, ite_true]
  rw [p5]

theorem analyze_basic_parsed (benv : BasicEnv) (ut : String) (cur : Order) (hist : List Msg)
    (key raw : String) (result : Json)
    (b1 : benv.apiKey = some key) (b2 : pyIn "sk-" key = true)
    (b3 : benv.response = .ok raw)
    (b4 : pyIn "```" (pyStrip raw) = false)
    (b5 : benv.loads (pyStrip raw) = .ok result) :
    analyze_basic benv ut cur hist = .ok (basicMerge cur result) := by
  unfold analyze_basic
  rw [b1, b3]
  simp only [b2, b4, Bool.not_true, Bool.false_eq_true, if_false, if_true, ite_false, ite_true]
  unfold basicParse
  rw [b5]

/-- C4: given a parsed reply whose `updated_order` is an object patch, both
extractors return the shallow field-by-field override of (a copy of) the
current order: a key of the patch takes the patch's (last) value, a key
absent from the patch keeps the current order's value. -/
theorem intent_merge_shallow_override
    (cur : Order) (fields patch : List (String × Json)) (ut : String) (hist : List Msg)
    (env : ProEnv) (benv : BasicEnv) (extracted key raw : String) (msgJ : Json)
    (p1 : env.hasClient = true) (p2 : env.hasResponsesApi = true)
    (p3 : env.intentResponse = .ok extracted)
    (p4 : pyIn "```" (pyStrip extracted) = false)
    (p5 : env.loads (pyStrip extracted) = .ok (.jObj fields))
    (b1 : benv.apiKey = some key) (b2 : pyIn "sk-" key = true)
    (b3 : benv.response = .ok raw)
    (b4 : pyIn "```" (pyStrip raw) = false)
    (b5 : benv.loads (pyStrip raw) = .ok (.jObj fields))
    (hupd : Order.get fields "updated_order" = some (.jObj patch))
    (hmsg : Order.get fields "response_message" = some msgJ) :
    (∀ k v, lastAssoc patch k = some v →
      ((analyze_pro env ut cur hist).order).get k = some v)
    ∧ (∀ k, lastAssoc patch k = none →
      ((analyze_pro env ut cur hist).order).get k = cur.get k)
    ∧ (∃ out, analyze_basic benv ut cur hist = .ok out
        ∧ (∀ k v, lastAssoc patch k = some v → out.order.get k = some v)
        ∧ (∀ k, lastAssoc patch k = none → out.order.get k = cur.get k)) := by
  have hpro : analyze_pro env ut cur hist = proMerge cur (.jObj fields) :=
    analyze_pro_parsed env ut cur hist extracted _ p1 p2 p3 p4 p5
  have hbasic : analyze_basic benv ut cur hist = .ok (basicMerge cur (.jObj fields)) :=
    analyze_basic_parsed benv ut cur hist key raw _ b1 b2 b3 b4 b5
  by_cases hemp : patch.isEmpty
  · have hpatch : patch = [] := by
      cases patch with
      | nil => rfl
      | cons a b => simp [List.isEmpty] at hemp
    subst hpatch
    have ho : (analyze_pro env ut cur hist).order = cur := by
      rw [hpro]; unfold proMerge; dsimp only; rw [hupd]; rfl
    have hb : basicMerge cur (.jObj fields) =
        ⟨cur, msgJ, 1⟩ := by
      unfold basicMerge; dsimp only; rw [hupd]
      simp only [List.isEmpty, Bool.not_true, Bool.false_eq_true, if_false, ite_false]
      unfold basicFinish; rw [hmsg]
    refine ⟨?_, ?_, ⟨cur, msgJ, 1⟩, by rw [hbasic, hb], ?_, ?_⟩
    · intro k v hk; simp [lastAssoc] at hk
    · intro k _; rw [ho]
    · intro k v hk; simp [lastAssoc] at hk
    · intro k _; rfl
  · have ho : (analyze_pro env ut cur hist).order = pyUpdate cur patch := by
      rw [hpro]; unfold proMerge; dsimp only; rw [hupd]
      simp [hemp]
    have hb : basicMerge cur (.jObj fields) = ⟨pyUpdate cur patch, msgJ, 1⟩ := by
      unfold basicMerge; dsimp only; rw [hupd]
      simp only [hemp, Bool.not_false, if_true, ite_true]
      unfold basicFinish; rw [hmsg]
    refine ⟨?_, ?_, ⟨pyUpdate cur patch, msgJ, 1⟩, by rw [hbasic, hb], ?_, ?_⟩
    · intro k v hk; rw [ho]; exact get_pyUpdate_hit patch cur k v hk
    · intro k hk; rw [ho]; exact get_pyUpdate_miss patch cur k hk
    · intro k v hk; exact get_pyUpdate_hit patch cur k v hk
    · intro k hk; exact get_pyUpdate_miss patch cur k hk

theorem intent_merge_shallow_override_witness :
    ((analyze_pro envPatchDesign "바꿔줘"
        [("design_desc", Json.jStr "A"), ("lettering", Json.jStr "B")] []).order).get "design_desc"
      = some (Json.jStr "C")
    ∧ ((analyze_pro envPatchDesign "바꿔줘"
        [("design_desc", Json.jStr "A"), ("lettering", Json.jStr "B")] []).order).get "lettering"
      = some (Json.jStr "B")
    ∧ (∃ out, analyze_basic envBasicPatchDesign "바꿔줘"
        [("design_desc", Json.jStr "A"), ("lettering", Json.jStr "B")] [] = .ok out
        ∧ out.order.get "design_desc" = some (Json.jStr "C")
        ∧ out.order.get "lettering" = some (Json.jStr "B")) := by
  have h := intent_merge_shallow_override
    [("design_desc", Json.jStr "A"), ("lettering", Json.jStr "B")]
    [("updated_order", .jObj [("design_desc", .jStr "C")]), ("response_message", .jStr "ok")]
    [("design_desc", .jStr "C")] "바꿔줘" [] envPatchDesign envBasicPatchDesign
    rawPatchDesign "sk-test" rawPatchDesign (.jStr "ok")
    rfl rfl rfl rfl rfl rfl rfl rfl rfl rfl rfl rfl
  obtain ⟨h1, h2, out, hout, h3, h4⟩ := h
  exact ⟨h1 "design_desc" (.jStr "C") rfl, h2 "lettering" rfl,
         out, hout, h3 "design_desc" (.jStr "C") rfl, h4 "lettering" rfl⟩

-- =============================================================
--  C6: JSON parse failure recovery
-- =============================================================

theorem listContains_iff (n h : List Char) : listContains n h = true ↔ n <:+: h := by
  induction h with
  | nil => simp [listContains, List.isEmpty_iff]
  | cons c tl ih =>
    rw [listContains]
    simp only [Bool.or_eq_true, ih, List.infix_cons_iff, List.isPrefixOf_iff_prefix]

theorem pyIn_of_infix (needle hay : String) (h : needle.toList <:+: hay.toList) :
    pyIn needle hay = true :=
  (listContains_iff _ _).2 h

theorem toList_append (a b : String) : (a ++ b).toList = a.toList ++ b.toList := by
  cases a; cases b; rfl

theorem braceSpan_infix (s g : String) (h : braceSpan s = some g) :
    g.toList <:+: s.toList := by
  unfold braceSpan at h
  dsimp only at h
  rcases hfi : s.toList.findIdx? (· = '{') with _ | i
  · rw [hfi] at h
    exact absurd h (by simp)
  · rw [hfi] at h
    dsimp only at h
    split at h
    · cases h
      exact ((List.take_prefix _ _).isInfix).trans (List.drop_suffix i s.toList).isInfix
    · cases h

theorem pySlice_prefix (s : String) (n : Nat) : (pySlice s n).toList <+: s.toList :=
  List.take_prefix n s.toList

theorem pyIn_middle (pre mid suf : String) : pyIn mid (pre ++ mid ++ suf) = true := by
  apply pyIn_of_infix
  rw [toList_append, toList_append]
  exact ⟨pre.toList, suf.toList, rfl⟩

/-- C6 (amended): when no parse attempt succeeds — not even on the
brace-delimited span pulled out of a fenced block or surrounding prose — the
`app_pro` extractor returns the original order unchanged with a diagnostic
reply embedding the working text truncated to ≤ 300 characters (a substring
of the stripped raw response); the `app_basic` extractor also returns the
original order and recovers, but its diagnostic carries the parser's
exception text rather than an excerpt of the raw response.  Neither lets the
parse failure escape as an exception. -/
theorem parse_failure_recovery
    (env : ProEnv) (benv : BasicEnv) (ut : String) (cur : Order) (hist : List Msg)
    (extracted key raw e : String)
    (p1 : env.hasClient = true) (p2 : env.hasResponsesApi = true)
    (p3 : env.intentResponse = .ok extracted)
    (hfail : ∀ c, ∃ msg, env.loads c = .error msg)
    (b1 : benv.apiKey = some key) (b2 : pyIn "sk-" key = true)
    (b3 : benv.response = .ok raw)
    (b4 : pyIn "```" (pyStrip raw) = false)
    (b5 : benv.loads (pyStrip raw) = .error e) :
    (analyze_pro env ut cur hist).order = cur
    ∧ (∃ c1 : String, c1.toList <:+: (pyStrip extracted).toList
        ∧ (pySlice c1 300).toList.length ≤ 300
        ∧ (∃ d, (analyze_pro env ut cur hist).reply = .jStr d
            ∧ pyIn (pySlice c1 300) d = true))
    ∧ analyze_basic benv ut cur hist = .ok ⟨cur, .jStr ("오류 발생: " ++ e), 1⟩ := by
  have hbasic : analyze_basic benv ut cur hist = .ok ⟨cur, .jStr ("오류 발생: " ++ e), 1⟩ := by
    unfold analyze_basic
    rw [b1, b3]
    simp only [b2, b4, Bool.not_true, Bool.false_eq_true, if_false, if_true, ite_false, ite_true]
    unfold basicParse
    rw [b5]
  have hc1infix : (if pyIn "```" (pyStrip extracted) = true
        then (braceSpan (pyStrip extracted)).getD (pyStrip extracted)
        else pyStrip extracted).toList <:+: (pyStrip extracted).toList := by
    split
    · cases hbs : braceSpan (pyStrip extracted) with
      | none => simp [hbs]
      | some g => simpa [hbs] using braceSpan_infix _ g hbs
    · exact List.infix_refl _
  set c1 := if pyIn "```" (pyStrip extracted) = true
      then (braceSpan (pyStrip extracted)).getD (pyStrip extracted)
      else pyStrip extracted with hc1
  obtain ⟨e1, he1⟩ := hfail c1
  have hpro : analyze_pro env ut cur hist =
      match braceSpan c1 with
      | some g =>
          match env.loads g with
          | .ok result => proMerge cur result
          | .error _ =>
              ⟨cur, .jStr ("파싱 오류: 응답을 JSON으로 변환할 수 없습니다. (원문: " ++ pySlice c1 300 ++ ")"), 1⟩
      | none => ⟨cur, .jStr ("응답을 이해할 수 없습니다: " ++ pySlice c1 300), 1⟩ := by
    unfold analyze_pro
    rw [p1, p3]
    simp only [p2, Bool.not_true, Bool.false_eq_true, if_false, if_true, ite_false, ite_true]
    rw [← hc1, he1]
  cases hbs : braceSpan c1 with
  | none =>
    rw [hbs] at hpro
    have horder : (analyze_pro env ut cur hist).order = cur := by rw [hpro]
    have hreply : (analyze_pro env ut cur hist).reply
        = .jStr ("응답을 이해할 수 없습니다: " ++ pySlice c1 300) := by rw [hpro]
    have hin : pyIn (pySlice c1 300) ("응답을 이해할 수 없습니다: " ++ pySlice c1 300) = true := by
      have h0 := pyIn_middle "응답을 이해할 수 없습니다: " (pySlice c1 300) ""
      simpa using h0
    exact ⟨horder, ⟨c1, hc1infix, List.length_take_le _ _, ⟨_, hreply, hin⟩⟩, hbasic⟩
  | some g =>
    obtain ⟨e2, he2⟩ := hfail g
    rw [hbs] at hpro
    dsimp only at hpro
    rw [he2] at hpro
    have horder : (analyze_pro env ut cur hist).order = cur := by rw [hpro]
    have hreply : (analyze_pro env ut cur hist).reply
        = .jStr ("파싱 오류: 응답을 JSON으로 변환할 수 없습니다. (원문: " ++ pySlice c1 300 ++ ")") := by
      rw [hpro]
    have hin : pyIn (pySlice c1 300)
        ("파싱 오류: 응답을 JSON으로 변환할 수 없습니다. (원문: " ++ pySlice c1 300 ++ ")") = true :=
      pyIn_middle _ _ _
    exact ⟨horder, ⟨c1, hc1infix, List.length_take_le _ _, ⟨_, hreply, hin⟩⟩, hbasic⟩

/-- Modelled from the CPython `json` module: the `JSONDecodeError` text that
`json.loads` raises on the truncated document `"\x7b"`; all inputs in the
counterexample scenario fail to parse, the exact text of the generic case is
immaterial. -/
def loadsLBrace : String → Except String Json := fun s =>
  if s = "\x7b" then
    .error "Expecting property name enclosed in double quotes: line 1 column 2 (char 1)"
  else .error "Expecting value: line 1 column 1 (char 0)"

/-- An `app_basic` environment whose model reply is the truncated JSON
document `"\x7b"` (a lone left brace with no closing brace). -/
def envBasicLBrace : BasicEnv :=
  { apiKey := some "sk-test", response := .ok "\x7b", loads := loadsLBrace }

/-- C6 counterexample: on the malformed reply `"\x7b"`, `app_basic` returns the
original order unchanged, but its diagnostic is the parser exception text and
does not include the (≤ 300 character) excerpt of the raw response — here the
excerpt would be `"\x7b"` itself, and the reply contains no brace at all.  The
claim as stated (diagnostic always includes the truncated raw excerpt) is
therefore false for `analyze_intent_with_gpt` in `app_basic.py`. -/
theorem parse_failure_basic_reply_lacks_excerpt :
    analyze_basic envBasicLBrace "hi" [("design_desc", Json.jStr "A")] []
      = .ok ⟨[("design_desc", Json.jStr "A")],
             .jStr "오류 발생: Expecting property name enclosed in double quotes: line 1 column 2 (char 1)", 1⟩
    ∧ pyIn (pySlice "\x7b" 300)
        "오류 발생: Expecting property name enclosed in double quotes: line 1 column 2 (char 1)" = false :=
  ⟨rfl, rfl⟩

/-- An `app_pro` environment whose model reply is prose that no parse attempt
can turn into JSON. -/
def envParseFail : ProEnv :=
  { hasClient := true, hasResponsesApi := true, hasImagesApi := false,
    intentResponse := .ok "I cannot produce JSON",
    loads := fun _ => .error "Expecting value: line 1 column 1 (char 0)",
    briefResponse := .ok "", generate := fun _ => .ok "", decode := id,
    recursionFuel := 0 }

theorem parse_failure_recovery_witness :
    ((analyze_pro envParseFail "hi" [("design_desc", Json.jStr "A")] []).order
        = [("design_desc", Json.jStr "A")]
    ∧ (∃ c1 : String, c1.toList <:+: (pyStrip "I cannot produce JSON").toList
        ∧ (pySlice c1 300).toList.length ≤ 300
        ∧ (∃ d, (analyze_pro envParseFail "hi" [("design_desc", Json.jStr "A")] []).reply = .jStr d
            ∧ pyIn (pySlice c1 300) d = true))
    ∧ analyze_basic envBasicLBrace "hi" [("design_desc", Json.jStr "A")] []
        = .ok ⟨[("design_desc", Json.jStr "A")],
               .jStr ("오류 발생: " ++ "Expecting property name enclosed in double quotes: line 1 column 2 (char 1)"), 1⟩)
    ∧ (analyze_pro envParseFail "hi" [("design_desc", Json.jStr "A")] []).reply
        = .jStr "응답을 이해할 수 없습니다: I cannot produce JSON" :=
  ⟨parse_failure_recovery envParseFail envBasicLBrace "hi" [("design_desc", Json.jStr "A")] []
      "I cannot produce JSON" "sk-test" "\x7b"
      "Expecting property name enclosed in double quotes: line 1 column 2 (char 1)"
      rfl rfl rfl (fun c => ⟨"Expecting value: line 1 column 1 (char 0)", rfl⟩)
      rfl rfl rfl rfl rfl,
   rfl⟩

-- =============================================================
--  C7: behaviour with no configured credential
-- =============================================================

/-- The key-file half of `load_api_key`: read the file if it exists, strip
it, and use it only if non-empty. -/
def load_api_key_file : Option String → Option String
  | none => none
  | some contents =>
      let file_key := pyStrip contents
      if file_key ≠ "" then some file_key else none

/-- `load_api_key` from both files (lines 14-24 of `app_basic.py`, 57-67 of
`app_pro.py`): a truthy `OPENAI_API_KEY` environment variable wins (stripped),
else a non-empty key file, else `None`. -/
def load_api_key (envKey fileContents : Option String) : Option String :=
  match envKey with
  | some k => if k ≠ "" then some (pyStrip k) else load_api_key_file fileContents
  | none => load_api_key_file fileContents

/-- An `app_basic` environment in which no credential was found
(`OPENAI_API_KEY = None`). -/
def envBasicNoKey : BasicEnv :=
  { apiKey := none, response := .ok "",
    loads := fun _ => .error "Expecting value: line 1 column 1 (char 0)" }

/-- C7: with no credential in the environment variable and no key file,
`load_api_key` yields `None`; `app_pro`'s extractor then short-circuits with
the fixed notice, the order unchanged and zero provider requests; but
`app_basic`'s guard `"sk-" not in OPENAI_API_KEY` raises `TypeError` on the
`None` key instead of short-circuiting, contradicting the claim (and the
spec's degrade-gracefully intent) for that file. -/
theorem no_credential_shortcircuit
    (ut : String) (cur : Order) (hist : List Msg) :
    load_api_key none none = none
    ∧ (∀ (env : ProEnv), env.hasClient = false →
        analyze_pro env ut cur hist
          = ⟨cur, .jStr "🚨 OpenAI 클라이언트가 초기화되지 않았습니다. API 키를 확인해주세요.", 0⟩)
    ∧ (∀ (benv : BasicEnv), benv.apiKey = none →
        analyze_basic benv ut cur hist
          = .error "argument of type \x27NoneType\x27 is not iterable") := by
  refine ⟨rfl, ?_, ?_⟩
  · intro env h
    unfold analyze_pro
    rw [h]
    rfl
  · intro benv h
    unfold analyze_basic
    rw [h]

theorem no_credential_shortcircuit_witness :
    load_api_key none none = none
    ∧ analyze_pro envNoClient "hi" [("design_desc", Json.jStr "A")] []
        = ⟨[("design_desc", Json.jStr "A")],
           .jStr "🚨 OpenAI 클라이언트가 초기화되지 않았습니다. API 키를 확인해주세요.", 0⟩
    ∧ analyze_basic envBasicNoKey "hi" [("design_desc", Json.jStr "A")] []
        = .error "argument of type \x27NoneType\x27 is not iterable" := by
  obtain ⟨h1, h2, h3⟩ := no_credential_shortcircuit "hi" [("design_desc", Json.jStr "A")] []
  exact ⟨h1, h2 envNoClient rfl, h3 envBasicNoKey rfl⟩

-- =============================================================
--  Session state machine of `app_pro.py` (FORM / CHAT / SENT)
-- =============================================================

/-- Modelled from the CPython runtime: `repr()` of a parsed-JSON value, used
only to render f-string interpolations that feed provider prompts. -/
def Json.pyRepr : Json → String
  | .jStr s => "\x27" ++ s ++ "\x27"
  | .jInt n => toString n
  | .jBool b => if b then "True" else "False"
  | .jNull => "None"
  | .jArr elems => "[" ++ String.intercalate ", " (elems.attach.map (fun x => x.1.pyRepr)) ++ "]"
  | .jObj fields => "\x7b" ++ String.intercalate ", "
      (fields.attach.map (fun x => "\x27" ++ x.1.1 ++ "\x27: " ++ x.1.2.pyRepr)) ++ "\x7d"
decreasing_by
  · have h := List.sizeOf_lt_of_mem x.2
    simp only [Json.jArr.sizeOf_spec]
    omega
  · obtain ⟨⟨k, v⟩, hx⟩ := x
    have h := List.sizeOf_lt_of_mem hx
    simp only [Prod.mk.sizeOf_spec] at h
    simp only [Json.jObj.sizeOf_spec]
    omega

/-- Modelled from the CPython runtime: `str()` of a parsed-JSON value
(f-string interpolation); containers render as their `repr`. -/
def Json.pyStr : Json → String
  | .jStr s => s
  | .jInt n => toString n
  | .jBool b => if b then "True" else "False"
  | .jNull => "None"
  | j => j.pyRepr

/-- The per-user `st.session_state` of `app_pro.py`: phase, chat turns, the
order dict (which carries its own `price` entry), the uploaded reference
image (its name models identity), the auto-design toggle, the deferred
protocol bookkeeping, and the last generated design image (bytes abstracted
as an opaque string). -/
structure SessionState where
  step : String
  messages : List Msg
  order : Order
  uploaded_img : Option String
  last_img : Option String
  auto_generate_design : Bool
  process_on_next : Bool
  pending_prompt : Option String
  pending_placeholder_idx : Option Nat
  generated_design_image : Option String

/-- Fresh session (`FORM`, empty history, empty order). -/
def initSession : SessionState :=
  ⟨"FORM", [], [], none, none, false, false, none, none, none⟩

/-- The welcome turn seeded on FORM→CHAT (`app_pro.py` lines 614-621). -/
def welcomeMsg (name : String) : String :=
  "안녕하세요 " ++ name ++ "님! 👋 왼쪽 주문서 보이시죠?\n\n" ++
  "원하는 케이크의 디자인과 레터링 문구를 적어주세요.\n\n" ++
  "케이크 디자인 : \n" ++
  "레터링 : \n" ++
  "(왼쪽에 사진에 초안을 업로드해주면 최고~!)\n\n" ++
  "케이크 디자인은 최대한 상세하게 적어주세요 😊"

/-- The order literal built on FORM→CHAT (`app_pro.py` lines 599-612). -/
def initialOrder (name phone size fill date timeSel : String) : Order :=
  [("name", .jStr name), ("phone", .jStr phone), ("size", .jStr size),
   ("filling", .jStr fill), ("decoration", .jStr "주문제작"),
   ("has_image", .jBool false), ("has_color", .jBool false), ("object_count", .jInt 0),
   ("pickupDate", .jStr date), ("pickupTime", .jStr timeSel),
   ("design_desc", .jStr "-"), ("lettering", .jStr "-")]

/-- FORM→CHAT (`app_pro.py` lines 595-624): validation (`not name or not
phone or not time_sel`) blocks the transition; on success the order is built
with zeroed extras, the price is computed and stored, the welcome turn seeds
the history.  (The `none` price branch is unreachable: the freshly built
order is well-typed.) -/
def startChat (s : SessionState) (name phone size fill date : String)
    (time_sel : Option String) : SessionState :=
  if name = "" ∨ phone = "" ∨ time_sel = none ∨ time_sel = some "" then s
  else
    let o0 := initialOrder name phone size fill date (time_sel.getD "")
    let o1 := match calculate_price_pro o0 with
      | some p => o0.set "price" (.jInt p)
      | none => o0
    { s with step := "CHAT", order := o1,
             messages := [⟨"assistant", .jStr (welcomeMsg name)⟩] }

/-- The fixed placeholder text of the deferred protocol (`app_pro.py` line
660). -/
def processingNotice : String := "⏳ 답변/시안 생성 중입니다. 잠시만 기다려 주세요!"

/-- Chat submission (`app_pro.py` lines 651-667): the user turn and the
placeholder turn are appended immediately — before any external call — and
the real work is deferred to the next run. -/
def submitChat (s : SessionState) (prompt : String) : SessionState :=
  let msgs1 := s.messages ++ [⟨"user", .jStr prompt⟩]
  let pidx := msgs1.length
  { s with messages := msgs1 ++ [⟨"assistant", .jStr processingNotice⟩],
           pending_prompt := some prompt,
           pending_placeholder_idx := some pidx,
           process_on_next := true }

/-- Replace the content (only) of the message at the given index. -/
def modifyContent : List Msg → Nat → Json → List Msg
  | [], _, _ => []
  | m :: rest, 0, t => ⟨m.role, t⟩ :: rest
  | m :: rest, Nat.succ n, t => m :: modifyContent rest n t

/-- `app_pro.py` lines 490-493 / 497-500: write the final reply into the
placeholder if the recorded index is in range, else append a fresh assistant
turn. -/
def placeMsg (msgs : List Msg) (pidx : Option Nat) (text : Json) : List Msg :=
  match pidx with
  | some i => if i < msgs.length then modifyContent msgs i text
              else msgs ++ [⟨"assistant", text⟩]
  | none => msgs ++ [⟨"assistant", text⟩]

/-- Tail of the deferred step (`app_pro.py` lines 490-504): place the final
text and pop the pending bookkeeping. -/
def finishDeferred (s : SessionState) (pidx : Option Nat) (text : Json) : SessionState :=
  { s with messages := placeMsg s.messages pidx text,
           pending_prompt := none, pending_placeholder_idx := none }

/-- `request_design_brief` from `app_pro.py` lines 230-271; the prompt
construction (flavour mood snippet + style policy + optional reference
image) feeds only the provider, whose reply is `env.briefResponse`; a raised
provider exception propagates to the caller (`.error`); a falsy reply text
falls back to the fixed notice. -/
def request_design_brief (env : ProEnv) (user_prompt system_prompt : String)
    (image_b64 : Option String) (filling : String) : Except String String :=
  if !env.hasClient then .ok "OpenAI 클라이언트가 초기화되지 않았습니다."
  else if env.hasResponsesApi then
    match env.briefResponse with
    | .error e => .error e
    | .ok primary_text => .ok (if primary_text = "" then "결과를 읽어오지 못했습니다." else primary_text)
  else .ok "지원되는 챗 API가 없습니다."

/-- `DEFAULT_IMAGE_MODEL` from `app_pro.py` line 77. -/
def DEFAULT_IMAGE_MODEL : String := "dall-e-3"

/-- `ALT_IMAGE_MODEL` from `app_pro.py` line 78 — the same identifier as the
default model. -/
def ALT_IMAGE_MODEL : String := "dall-e-3"

/-- The kwargs of the first `images.generate` attempt (`app_pro.py` lines
319-325). -/
def initialImgKwargs (model prompt : String) : ImgKwargs :=
  ⟨model, prompt, "1024x1024", some "high", some "b64_json"⟩

/-- `app_pro.py` lines 331-334: drop the parameters the rejection text
blames. -/
def stripBadParams (kw : ImgKwargs) (emsg : String) : ImgKwargs :=
  let kw1 := if pyIn "response_format" emsg then { kw with response_format := none } else kw
  if pyIn "quality" emsg || pyIn "Invalid value" emsg then { kw1 with quality := none } else kw1

/-- `request_design_image` from `app_pro.py` lines 314-344.  The fuel models
Python's recursion limit (the recursive `PermissionDeniedError` fallback) and
the second component counts `images.generate` calls.  A `BadRequestError`
triggers one unguarded retry with the offending parameters stripped; a
`PermissionDeniedError` on `DEFAULT_IMAGE_MODEL` recurses on
`ALT_IMAGE_MODEL`; on any other model it re-raises. -/
def request_design_image (env : ProEnv) (fuel : Nat) (prompt : String) (model : String) :
    Except String (Option String) × Nat :=
  match fuel with
  | 0 => (.error "RecursionError: maximum recursion depth exceeded", 0)
  | fuel' + 1 =>
    if !env.hasClient then (.ok none, 0)
    else if env.hasImagesApi then
      let kwargs := initialImgKwargs model prompt
      match env.generate kwargs with
      | .ok b64 => (.ok (some (env.decode b64)), 1)
      | .badRequest emsg =>
          match env.generate (stripBadParams kwargs emsg) with
          | .ok b64 => (.ok (some (env.decode b64)), 2)
          | .badRequest e2 => (.error ("BadRequestError: " ++ e2), 2)
          | .permissionDenied e2 => (.error ("PermissionDeniedError: " ++ e2), 2)
      | .permissionDenied emsg =>
          if model = DEFAULT_IMAGE_MODEL then
            let out := request_design_image env fuel' prompt ALT_IMAGE_MODEL
            (out.1, out.2 + 1)
          else (.error ("PermissionDeniedError: " ++ emsg), 1)
    else (.ok none, 0)

/-- The flavour-mood clause of `build_image_prompt` (`app_pro.py` lines
277-284). -/
def image_filling_mood (filling : String) : String :=
  if filling = "초코" then
    "다크하고 고급스러운 초콜릿 분위기이지만, 장식은 과하지 않고 차분한 느낌의 심플한 디자인."
  else if filling = "생크림" then "밝고 깔끔한 생크림 분위기. 파스텔 톤 위주의 미니멀한 디자인."
  else if filling = "레드벨벳" then "우아하고 고급스러운 레드벨벳 분위기. 레드와 화이트의 단순한 조합."
  else if filling = "티라미수" then "티라미수 특유의 카카오와 크림 조화. 브라운/크림 톤의 차분한 디자인."
  else ""

/-- `build_image_prompt` from `app_pro.py` lines 275-311: fixed hard
constraints, the flavour clause, the raw user request and the design brief,
stripped. -/
def build_image_prompt (user_prompt design_brief filling : String) : String :=
  let filling_mood := image_filling_mood filling
  let filling_context :=
    if filling_mood ≠ "" then "\n케이크 맛: " ++ filling ++ "\n" ++ filling_mood ++ "\n"
    else "\n케이크 맛: " ++ filling ++ "\n"
  pyStrip ("\nYou are a pâtisserie for custom cake.\n\nCONSTRAINTS (MUST FOLLOW):\n- Render only a REALISTIC, physically feasible 1-tier (single-layer) cake.\n- Never produce multi-tier or floating/structurally impossible cakes.\n- The cake must look like a real custom cake you could order at a small local Korean bakery or home bakery, NOT a luxury wedding cake or fantasy cake.\n- Overall style should be simple, minimal, and easy to make in a real kitchen.\n- Limit the color palette to at most 2–3 main colors.\n- Do NOT use tall 3D toppers, big figurines, or complex sculptures. Decorations must stay low-profile: cream piping, small fruits, small chocolate pieces, simple flat drawings on the top surface, etc.\n- Use only real bakery materials (buttercream, fresh cream, fruits, chocolate, simple sugar flowers, edible gold flakes, etc.).\n- No text overlays, no watermarks, no logos in the image itself.\n- Showcase the cake as a real product photo in a clean studio setting, shallow depth of field, close-up.\n- The cake must be easy and realistic for a real baker to reproduce.\n\n"
    ++ filling_context ++ "\nUser request (Korean):\n" ++ user_prompt
    ++ "\n\nDesign brief (Korean):\n" ++ design_brief
    ++ "\n\nOutput target:\nA realistic product hero image of a single-tier, simple, minimal custom cake that a real bakery can easily make.\n")

/-- `DEFAULT_DESIGN_SYSTEM_PROMPT` from `app_pro.py` lines 41-52. -/
def DEFAULT_DESIGN_SYSTEM_PROMPT : String :=
  "너는 커스텀 케이크 디자이너야. 다음 규칙을 반드시 따르며 케이크를 디자인해줘:\n" ++
  "1) 결과물은 항상 \"현실적으로 제작 가능한 실제 1단(원단) 케이크\"여야 한다.\n" ++
  "2) 사용자의 설명은 반드시 케이크 디자인에 반영한다.\n" ++
  "3) 생성하는 이미지에는 케이크 이외의 부수적인 요소는 포함되면 안돼. \n" ++
  "4) 케이크는 과장되거나 비현실적인 형태(공중에 떠 있는 장식, 과도하게 큰 조형물, 지나치게 복잡한 구조)를 가지면 안 된다.\n" ++
  "5) 전체 분위기는 \x27심플하고 미니멀한 디자인\x27을 기본으로 하고, 색상은 최대 2~3가지 안에서 조합한다.\n" ++
  "6) 케이크 상단과 옆면 장식은 실제 동네 케이크 가게나 홈베이커가 구현할 수 있을 정도의 난이도로 제한한다.\n" ++
  "7) 출력은 한국어 bullet 형식 5줄 이내로 작성한다.\n" ++
  "8) 이미지/시안 생성 시 케이크는 반드시 단층(single-tier)으로 표현하고, 2단 이상은 절대 안 된다.\n" ++
  "9) 이미지/시안 생성 시 케이크의 디자인은 복잡한 데코를 사용하지 말고, 평면 그림 위주로 구성한다."

/-- Modelled from the CPython runtime: representative `TypeError` text when
`calculate_price` trips on an ill-typed field (exact wording varies by field
and is immaterial to the claims). -/
def priceTypeErrorMsg : String :=
  "unsupported operand type(s) for +=: \x27int\x27 and \x27str\x27"

/-- Modelled from the CPython runtime: `TypeError` text of `str + non-str`
(`"...AI 응답: " + ai_res` with a non-string reply). -/
def concatTypeErrorMsg : String := "can only concatenate str (not \x22dict\x22) to str"

/-- The deferred step of `app_pro.py` lines 445-504: clear the flag, run the
intent extractor on the pending prompt, store the merged order, recompute the
price; with the auto-design toggle on, run the design-brief and image
pipeline, overwrite `design_desc` with the fresh brief and recompute the
price again; place the final (or error) text into the placeholder.  Every
exception of the `try` block — including a `TypeError` raised inside
`calculate_price` on an ill-typed merged field — is caught with whatever
partial mutations have already been stored. -/
def processDeferred (env : ProEnv) (s0 : SessionState) : SessionState :=
  if !s0.process_on_next then s0
  else
    let s1 := { s0 with process_on_next := false }
    let prompt := s1.pending_prompt.getD ""
    let pidx := s1.pending_placeholder_idx
    let clean_hist := s1.messages.filter (fun m => m.content.truthy)
    let out := analyze_pro env prompt s1.order clean_hist
    let s2 := { s1 with order := out.order }
    match calculate_price_pro out.order with
    | none =>
        finishDeferred s2 pidx (.jStr ("처리 중 오류가 발생했습니다: " ++ priceTypeErrorMsg))
    | some p =>
      let s3 := { s2 with order := s2.order.set "price" (.jInt p) }
      if s3.auto_generate_design then
        let filling := ((s3.order.get "filling").getD (.jStr "")).pyStr
        let design_context := ((s3.order.get "design_desc").getD (.jStr "-")).pyStr
        let lettering_context := ((s3.order.get "lettering").getD (.jStr "-")).pyStr
        let combined_prompt := "사용자 요청: " ++ prompt ++ "\n\n(현재 반영된 디자인) 디자인: "
          ++ design_context ++ "\n레터링: " ++ lettering_context
        match request_design_brief env combined_prompt DEFAULT_DESIGN_SYSTEM_PROMPT
            s3.uploaded_img filling with
        | .error e => finishDeferred s3 pidx (.jStr ("처리 중 오류가 발생했습니다: " ++ e))
        | .ok design_brief =>
          let img_prompt := build_image_prompt combined_prompt design_brief filling
          match (request_design_image env env.recursionFuel img_prompt DEFAULT_IMAGE_MODEL).1 with
          | .error e => finishDeferred s3 pidx (.jStr ("처리 중 오류가 발생했습니다: " ++ e))
          | .ok none =>
              match out.reply with
              | .jStr ai_res =>
                  finishDeferred s3 pidx
                    (.jStr ("시안 이미지 생성에 실패했습니다. (권한/모델 문제일 수 있음)\n\nAI 응답: " ++ ai_res))
              | _ =>
                  finishDeferred s3 pidx (.jStr ("처리 중 오류가 발생했습니다: " ++ concatTypeErrorMsg))
          | .ok (some img_bytes) =>
              let s4 := { s3 with generated_design_image := some img_bytes,
                                  order := s3.order.set "design_desc" (.jStr design_brief) }
              match calculate_price_pro s4.order with
              | none =>
                  finishDeferred s4 pidx (.jStr ("처리 중 오류가 발생했습니다: " ++ priceTypeErrorMsg))
              | some p2 =>
                  let s5 := { s4 with order := s4.order.set "price" (.jInt p2) }
                  finishDeferred s5 pidx
                    (.jStr ("✅ 시안이 생성되었습니다!\n\n디자인 제안:\n" ++ design_brief
                      ++ "\n\n생성된 시안은 사이드바와 최종 견적서에서 확인할 수 있습니다."))
      else finishDeferred s3 pidx out.reply

/-- Reference-image attach (`app_pro.py` lines 527-536): set the flag, set
`has_image`, recompute the price, append the notice.  A `TypeError` inside
`calculate_price` would propagate with the flag already set and the price
stale (the `none` branch). -/
def attachImage (s : SessionState) (fname : String) : SessionState :=
  let s1 := { s with last_img := some fname, uploaded_img := some fname }
  let o1 := s1.order.set "has_image" (.jBool true)
  match calculate_price_pro o1 with
  | some p =>
      { s1 with order := o1.set "price" (.jInt p),
                messages := s1.messages ++ [⟨"assistant", .jStr "참고 사진이 추가되었습니다. (+10,000원)"⟩] }
  | none => { s1 with order := o1 }

/-- Reference-image detach (`app_pro.py` lines 540-549). -/
def detachImage (s : SessionState) : SessionState :=
  let s1 := { s with uploaded_img := none, last_img := none }
  let o1 := s1.order.set "has_image" (.jBool false)
  match calculate_price_pro o1 with
  | some p =>
      { s1 with order := o1.set "price" (.jInt p),
                messages := s1.messages ++ [⟨"assistant", .jStr "참고 사진이 제거되었습니다."⟩] }
  | none => { s1 with order := o1 }

/-- A chat turn in `app_basic.py` (lines 271-278): append the user turn, run
the extractor, store the merged order, recompute the price, append the
reply.  Exceptions (the `None`-key `TypeError`, or a `TypeError` inside
`calculate_price`) are uncaught there: the run dies with the partial state
stored. -/
def basicChatTurn (benv : BasicEnv) (s : SessionState) (prompt : String) : SessionState :=
  let msgs1 := s.messages ++ [⟨"user", .jStr prompt⟩]
  match analyze_basic benv prompt s.order msgs1 with
  | .error _ => { s with messages := msgs1 }
  | .ok out =>
    match calculate_price_basic out.order with
    | none => { s with messages := msgs1, order := out.order }
    | some p =>
        { s with messages := msgs1 ++ [⟨"assistant", out.reply⟩],
                 order := out.order.set "price" (.jInt p) }

/-- Does the order's stored `price` entry hold exactly the integer the
pricing function computes for the order? -/
def priceConsistentB (o : Order) : Bool :=
  match o.get "price", calculate_price_pro o with
  | some (.jInt p), some q => p == q
  | _, _ => false

-- =============================================================
--  C2: the stored price after each mutating operation
-- =============================================================

theorem calculate_price_pro_set_ne (o : Order) (k : String) (v : Json)
    (h1 : k ≠ "size") (h2 : k ≠ "filling") (h3 : k ≠ "has_image") (h4 : k ≠ "has_color")
    (h5 : k ≠ "object_count") (h6 : k ≠ "lettering") :
    calculate_price_pro (o.set k v) = calculate_price_pro o := by
  unfold calculate_price_pro
  rw [Order.get_set, Order.get_set, Order.get_set, Order.get_set, Order.get_set, Order.get_set]
  simp [h1, h2, h3, h4, h5, h6]

theorem calc_set_price (o : Order) (v : Json) :
    calculate_price_pro (o.set "price" v) = calculate_price_pro o :=
  calculate_price_pro_set_ne o "price" v (by decide) (by decide) (by decide) (by decide)
    (by decide) (by decide)

theorem calc_set_design (o : Order) (v : Json) :
    calculate_price_pro (o.set "design_desc" v) = calculate_price_pro o :=
  calculate_price_pro_set_ne o "design_desc" v (by decide) (by decide) (by decide) (by decide)
    (by decide) (by decide)

theorem priceConsistentB_set (o : Order) (p : Int) (h : calculate_price_pro o = some p) :
    priceConsistentB (o.set "price" (.jInt p)) = true := by
  have hget : (o.set "price" (.jInt p)).get "price" = some (.jInt p) := by
    rw [Order.get_set]
    simp
  unfold priceConsistentB
  rw [hget, calc_set_price, h]
  simp

theorem initialOrder_price (name phone size fill date t : String) :
    ∃ p, calculate_price_pro (initialOrder name phone size fill date t) = some p := by
  unfold calculate_price_pro
  rw [show (initialOrder name phone size fill date t).get "size" = some (.jStr size) from rfl,
      show (initialOrder name phone size fill date t).get "filling" = some (.jStr fill) from rfl,
      show (initialOrder name phone size fill date t).get "object_count" = some (.jInt 0) from rfl,
      show (initialOrder name phone size fill date t).get "lettering" = some (.jStr "-") from rfl]
  exact ⟨_, rfl⟩

/-- C2 (amended): after every operation that mutates the order — the
FORM→CHAT initialization, the deferred intent-merge step, the auto-design
`design_desc` overwrite, reference-image attach and detach, and `app_basic`'s
chat turn — the order's stored `price` entry equals the pricing function
applied to the resulting order, provided the (merged) order keeps its
pricing-relevant fields price-computable; a model patch that makes them
ill-typed instead raises `TypeError` inside the recomputation after the
merge has been stored, leaving the stored price stale. -/
theorem price_invariant_after_mutations :
    (∀ (s : SessionState) (name phone size fill date : String) (t : Option String),
      ¬(name = "" ∨ phone = "" ∨ t = none ∨ t = some "") →
      priceConsistentB (startChat s name phone size fill date t).order = true)
    ∧ (∀ (env : ProEnv) (s : SessionState),
        s.process_on_next = true →
        (calculate_price_pro (analyze_pro env (s.pending_prompt.getD "") s.order
          (s.messages.filter (fun m => m.content.truthy))).order).isSome = true →
        priceConsistentB (processDeferred env s).order = true)
    ∧ (∀ (s : SessionState) (fname : String),
        (calculate_price_pro (s.order.set "has_image" (.jBool true))).isSome = true →
        priceConsistentB (attachImage s fname).order = true)
    ∧ (∀ (s : SessionState),
        (calculate_price_pro (s.order.set "has_image" (.jBool false))).isSome = true →
        priceConsistentB (detachImage s).order = true)
    ∧ (∀ (benv : BasicEnv) (s : SessionState) (prompt : String) (out : IntentOutcome),
        analyze_basic benv prompt s.order (s.messages ++ [⟨"user", .jStr prompt⟩]) = .ok out →
        (calculate_price_basic out.order).isSome = true →
        priceConsistentB (basicChatTurn benv s prompt).order = true) := by
  refine ⟨?_, ?_, ?_, ?_, ?_⟩
  · intro s name phone size fill date t hvalid
    obtain ⟨p, hp⟩ := initialOrder_price name phone size fill date (t.getD "")
    unfold startChat
    rw [if_neg hvalid]
    dsimp only
    rw [hp]
    exact priceConsistentB_set _ p hp
  · intro env s hpn hsome
    obtain ⟨p, hp⟩ := Option.isSome_iff_exists.mp hsome
    unfold processDeferred
    simp only [hpn, Bool.not_true, Bool.false_eq_true, if_false, ite_false]
    rw [hp]
    dsimp only
    split
    · -- auto-design branch
      split
      · exact priceConsistentB_set _ p hp
      · split
        · exact priceConsistentB_set _ p hp
        · split
          · exact priceConsistentB_set _ p hp
          · exact priceConsistentB_set _ p hp
        · split
          · -- the second price recomputation cannot raise: design_desc is irrelevant
            rename_i design_brief hnone
            rw [calc_set_design, calc_set_price, hp] at hnone
            cases hnone
          · rename_i design_brief p2 hp2
            exact priceConsistentB_set _ p2 hp2
    · exact priceConsistentB_set _ p hp
  · intro s fname hsome
    obtain ⟨p, hp⟩ := Option.isSome_iff_exists.mp hsome
    unfold attachImage
    dsimp only
    rw [hp]
    exact priceConsistentB_set _ p hp
  · intro s hsome
    obtain ⟨p, hp⟩ := Option.isSome_iff_exists.mp hsome
    unfold detachImage
    dsimp only
    rw [hp]
    exact priceConsistentB_set _ p hp
  · intro benv s prompt out hok hsome
    obtain ⟨p, hp⟩ := Option.isSome_iff_exists.mp hsome
    unfold basicChatTurn
    dsimp only
    rw [hok]
    dsimp only
    rw [hp]
    exact priceConsistentB_set _ p hp

/-- The raw model reply whose patch carries a string `object_count`. -/
def rawBadCount : String :=
  "\x7b\"updated_order\": \x7b\"object_count\": \"two\"\x7d, \"response_message\": \"ok\"\x7d"

/-- Modelled from the Python standard library: `json.loads` on the one
response text the stale-price scenario uses. -/
def loadsBadCount : String → Except String Json := fun s =>
  if s = rawBadCount then
    .ok (.jObj [("updated_order", .jObj [("object_count", .jStr "two")]),
                ("response_message", .jStr "ok")])
  else .error "Expecting value: line 1 column 1 (char 0)"

/-- A fully configured environment whose model reply patches `object_count`
to the string `"two"` — schema-violating but accepted by the merge. -/
def envBadCount : ProEnv :=
  { hasClient := true, hasResponsesApi := true, hasImagesApi := false,
    intentResponse := .ok rawBadCount, loads := loadsBadCount,
    briefResponse := .ok "", generate := fun _ => .ok "", decode := id,
    recursionFuel := 0 }

/-- The session right after a valid FORM→CHAT transition. -/
def witnessSession : SessionState :=
  startChat initSession "김하늘" "01012345678" "1호" "생크림" "2025-12-24" (some "10:00")

/-- C2 counterexample: submitting a chat turn whose model patch sets
`object_count` to the string `"two"` drives the deferred step into the
`except` handler — `calculate_price` raises on the merged order after the
merge was stored — so the session ends the cycle with a mutated order whose
stored price is stale (it no longer equals the pricing function, which is
undefined on the mutated order).  Before the turn the invariant held. -/
theorem price_invariant_stale_after_bad_patch :
    priceConsistentB (submitChat witnessSession "오브제 두 개 추가해줘").order = true
    ∧ priceConsistentB
        (processDeferred envBadCount (submitChat witnessSession "오브제 두 개 추가해줘")).order
      = false
    ∧ (processDeferred envBadCount (submitChat witnessSession "오브제 두 개 추가해줘")).order.get
        "object_count" = some (.jStr "two") :=
  ⟨rfl, rfl, rfl⟩

theorem price_invariant_after_mutations_witness :
    priceConsistentB witnessSession.order = true
    ∧ priceConsistentB (processDeferred envPatchDesign (submitChat witnessSession "바꿔줘")).order = true
    ∧ priceConsistentB (attachImage witnessSession "cake.png").order = true
    ∧ priceConsistentB (detachImage witnessSession).order = true
    ∧ priceConsistentB (basicChatTurn envBasicPatchDesign witnessSession "바꿔줘").order = true := by
  refine ⟨?_, ?_, ?_, ?_, ?_⟩
  · exact price_invariant_after_mutations.1 initSession "김하늘" "01012345678" "1호" "생크림"
      "2025-12-24" (some "10:00") (by decide)
  · exact price_invariant_after_mutations.2.1 envPatchDesign
      (submitChat witnessSession "바꿔줘") rfl rfl
  · exact price_invariant_after_mutations.2.2.1 witnessSession "cake.png" rfl
  · exact price_invariant_after_mutations.2.2.2.1 witnessSession rfl
  · exact price_invariant_after_mutations.2.2.2.2 envBasicPatchDesign witnessSession "바꿔줘"
      ⟨pyUpdate witnessSession.order [("design_desc", .jStr "C")], .jStr "ok", 1⟩ rfl rfl

-- =============================================================
--  C3: the deferred-processing protocol
-- =============================================================

theorem modifyContent_at_end (l : List Msg) (ph : Msg) (t : Json) :
    modifyContent (l ++ [ph]) l.length t = l ++ [⟨ph.role, t⟩] := by
  induction l with
  | nil => rfl
  | cons a rest ih => simp [modifyContent, ih]

theorem placeMsg_at_placeholder (msgs : List Msg) (u ph : Msg) (t : Json) :
    placeMsg ((msgs ++ [u]) ++ [ph]) (some ((msgs ++ [u]).length)) t
      = msgs ++ [u, ⟨ph.role, t⟩] := by
  unfold placeMsg
  dsimp only
  rw [if_pos (by simp), modifyContent_at_end]
  simp

theorem processDeferred_messages (env : ProEnv) (s1 : SessionState)
    (hpn : s1.process_on_next = true) :
    ∃ t : Json, (processDeferred env s1).messages
      = placeMsg s1.messages s1.pending_placeholder_idx t := by
  unfold processDeferred
  simp only [hpn, Bool.not_true, Bool.false_eq_true, if_false, ite_false]
  repeat' first
    | exact ⟨_, rfl⟩
    | split
    | dsimp only

theorem processDeferred_step (env : ProEnv) (s : SessionState) :
    (processDeferred env s).step = s.step := by
  unfold processDeferred
  repeat' first
    | rfl
    | split
    | dsimp only

theorem request_design_brief_error (env : ProEnv) (up sp : String) (img : Option String)
    (filling : String) (hc : env.hasClient = true) (hra : env.hasResponsesApi = true)
    (e : String) (hbrief : env.briefResponse = .error e) :
    request_design_brief env up sp img filling = .error e := by
  unfold request_design_brief
  rw [hc]
  simp only [hra, Bool.not_true, Bool.false_eq_true, if_false, if_true, ite_false, ite_true]
  rw [hbrief]

/-- C3: submitting a chat turn immediately appends the user turn and the
fixed assistant placeholder (no environment/provider access happens in that
step); on the next cycle the placeholder's content is replaced in place —
same index, same assistant role — while every earlier turn keeps its position
and content, and the step/phase is unchanged; when the deferred work raises
(here: the design-brief request), the caught exception's text is what lands
in the placeholder, so the history is never truncated. -/
theorem deferred_protocol (s : SessionState) (prompt : String) (env : ProEnv) :
    (submitChat s prompt).messages
      = s.messages ++ [⟨"user", .jStr prompt⟩, ⟨"assistant", .jStr processingNotice⟩]
    ∧ (∃ final : Json, (processDeferred env (submitChat s prompt)).messages
        = s.messages ++ [⟨"user", .jStr prompt⟩, ⟨"assistant", final⟩])
    ∧ (processDeferred env (submitChat s prompt)).step = s.step
    ∧ (∀ (e : String) (p : Int),
        s.auto_generate_design = true →
        env.hasClient = true →
        env.hasResponsesApi = true →
        env.briefResponse = .error e →
        calculate_price_pro (analyze_pro env prompt s.order
          (((s.messages ++ [Msg.mk "user" (.jStr prompt)])
              ++ [Msg.mk "assistant" (.jStr processingNotice)]).filter
            (fun m => m.content.truthy))).order = some p →
        (processDeferred env (submitChat s prompt)).messages
          = s.messages ++ [⟨"user", .jStr prompt⟩,
              ⟨"assistant", .jStr ("처리 중 오류가 발생했습니다: " ++ e)⟩]) := by
  refine ⟨by simp [submitChat], ?_, processDeferred_step env (submitChat s prompt), ?_⟩
  · obtain ⟨t, ht⟩ := processDeferred_messages env (submitChat s prompt) rfl
    exact ⟨t, ht.trans (placeMsg_at_placeholder s.messages (Msg.mk "user" (.jStr prompt))
      (Msg.mk "assistant" (.jStr processingNotice)) t)⟩
  · intro e p hauto hc hra hbrief hp
    have hpn : (submitChat s prompt).process_on_next = true := rfl
    unfold processDeferred
    simp only [hpn, Bool.not_true, Bool.false_eq_true, if_false, ite_false]
    dsimp only [submitChat, Option.getD]
    rw [hp]
    dsimp only
    rw [if_pos hauto]
    rw [request_design_brief_error env _ _ _ _ hc hra e hbrief]
    exact placeMsg_at_placeholder s.messages _ _ _

/-- A fully configured environment whose design-brief request raises. -/
def envBriefError : ProEnv := { envPatchDesign with briefResponse := .error "boom" }

/-- The witness session with the auto-design toggle on. -/
def autoSession : SessionState := { witnessSession with auto_generate_design := true }

theorem deferred_protocol_witness :
    (submitChat autoSession "바꿔줘").messages
      = autoSession.messages ++ [Msg.mk "user" (.jStr "바꿔줘"),
          Msg.mk "assistant" (.jStr processingNotice)]
    ∧ (∃ final : Json, (processDeferred envBriefError (submitChat autoSession "바꿔줘")).messages
        = autoSession.messages ++ [Msg.mk "user" (.jStr "바꿔줘"), Msg.mk "assistant" final])
    ∧ (processDeferred envBriefError (submitChat autoSession "바꿔줘")).step = autoSession.step
    ∧ (processDeferred envBriefError (submitChat autoSession "바꿔줘")).messages
        = autoSession.messages ++ [Msg.mk "user" (.jStr "바꿔줘"),
            Msg.mk "assistant" (.jStr ("처리 중 오류가 발생했습니다: " ++ "boom"))] := by
  obtain ⟨h1, h2, h3, h4⟩ := deferred_protocol autoSession "바꿔줘" envBriefError
  exact ⟨h1, h2, h3, h4 "boom" 45000 rfl rfl rfl rfl rfl⟩

-- =============================================================
--  C8: image-synthesizer fallback behaviour
-- =============================================================

/-- C8: the malformed-request fallback behaves as claimed — a
`BadRequestError` citing an unsupported parameter triggers exactly one retry
with the blamed parameter(s) removed and the same prompt and model (two
`generate` calls in total).  But the permission fallback does not: because
`ALT_IMAGE_MODEL` equals `DEFAULT_IMAGE_MODEL`, the guard
`model == DEFAULT_IMAGE_MODEL` is true on the fallback call too, so under a
provider that persistently denies permission the function keeps recursing on
the same model identifier until the recursion limit, issuing one `generate`
call per unit of fuel — the permission error never propagates after a second
attempt. -/
theorem image_generate_fallbacks :
    (∀ (env : ProEnv) (prompt model : String) (fuel : Nat) (msg b64 : String),
      env.hasClient = true → env.hasImagesApi = true →
      env.generate (initialImgKwargs model prompt) = .badRequest msg →
      env.generate (stripBadParams (initialImgKwargs model prompt) msg) = .ok b64 →
      request_design_image env (fuel + 1) prompt model = (.ok (some (env.decode b64)), 2))
    ∧ (∀ (kw : ImgKwargs) (msg : String),
        (stripBadParams kw msg).model = kw.model
        ∧ (stripBadParams kw msg).prompt = kw.prompt
        ∧ (pyIn "response_format" msg = true → (stripBadParams kw msg).response_format = none)
        ∧ (pyIn "quality" msg = true → (stripBadParams kw msg).quality = none))
    ∧ ALT_IMAGE_MODEL = DEFAULT_IMAGE_MODEL
    ∧ (∀ (env : ProEnv) (prompt msg : String),
        env.hasClient = true → env.hasImagesApi = true →
        (∀ kw, env.generate kw = .permissionDenied msg) →
        ∀ fuel, request_design_image env fuel prompt DEFAULT_IMAGE_MODEL
          = (.error "RecursionError: maximum recursion depth exceeded", fuel)) := by
  refine ⟨?_, ?_, rfl, ?_⟩
  · intro env prompt model fuel msg b64 hc hi hbad hok
    unfold request_design_image
    simp only [hc, hi, Bool.not_true, Bool.false_eq_true, if_false, ite_false, if_true, ite_true]
    rw [hbad]
    dsimp only
    rw [hok]
  · intro kw msg
    refine ⟨?_, ?_, ?_, ?_⟩
    · unfold stripBadParams
      dsimp only
      split <;> split <;> rfl
    · unfold stripBadParams
      dsimp only
      split <;> split <;> rfl
    · intro h
      unfold stripBadParams
      dsimp only
      rw [if_pos h]
      split <;> rfl
    · intro h
      unfold stripBadParams
      dsimp only
      rw [if_pos (by simp [h])]
  · intro env prompt msg hc hi hgen fuel
    induction fuel with
    | zero => rfl
    | succ n ih =>
      unfold request_design_image
      simp only [hc, hi, Bool.not_true, Bool.false_eq_true, if_false, ite_false, if_true, ite_true]
      rw [hgen]
      dsimp only
      rw [show ALT_IMAGE_MODEL = DEFAULT_IMAGE_MODEL from rfl, ih]

/-- A provider that rejects the first attempt for its `response_format` and
`quality` parameters and accepts the stripped retry. -/
def envImgBadReq : ProEnv :=
  { hasClient := true, hasResponsesApi := false, hasImagesApi := true,
    intentResponse := .ok "",
    loads := fun _ => .error "Expecting value: line 1 column 1 (char 0)",
    briefResponse := .ok "",
    generate := fun kw =>
      if kw.response_format.isSome then
        .badRequest "Unknown parameter response_format; Invalid value for quality"
      else .ok "aGVsbG8=",
    decode := fun _ => "hello-bytes", recursionFuel := 0 }

/-- A provider that denies permission on every attempt, for every model. -/
def envImgDeny : ProEnv :=
  { envImgBadReq with generate := fun _ => .permissionDenied "permission denied for model" }

theorem image_generate_fallbacks_witness :
    request_design_image envImgBadReq 1 "케이크" "dall-e-3" = (.ok (some "hello-bytes"), 2)
    ∧ (stripBadParams (initialImgKwargs "dall-e-3" "케이크")
        "Unknown parameter response_format; Invalid value for quality").model = "dall-e-3"
    ∧ (stripBadParams (initialImgKwargs "dall-e-3" "케이크")
        "Unknown parameter response_format; Invalid value for quality").prompt = "케이크"
    ∧ (stripBadParams (initialImgKwargs "dall-e-3" "케이크")
        "Unknown parameter response_format; Invalid value for quality").response_format = none
    ∧ (stripBadParams (initialImgKwargs "dall-e-3" "케이크")
        "Unknown parameter response_format; Invalid value for quality").quality = none
    ∧ request_design_image envImgDeny 5 "케이크" DEFAULT_IMAGE_MODEL
        = (.error "RecursionError: maximum recursion depth exceeded", 5) := by
  obtain ⟨h1, h2, h3, h4⟩ := image_generate_fallbacks
  refine ⟨?_, (h2 _ _).1, (h2 _ _).2.1, (h2 _ _).2.2.1 rfl, (h2 _ _).2.2.2 rfl,
    h4 envImgDeny "케이크" "permission denied for model" rfl rfl (fun kw => rfl) 5⟩
  exact h1 envImgBadReq "케이크" "dall-e-3" 0
    "Unknown parameter response_format; Invalid value for quality" "aGVsbG8=" rfl rfl rfl rfl
